import Mathlib

/-!
Verification development for the Synthesis Orchestration Pipeline of the
forge-of-thought backend.

The definitions below are a shallow embedding of the Python sources:
  backend/app/models/ki_ontology.py      (enumerations)
  backend/app/models/data_models.py      (pydantic data models)
  backend/app/services/synthesis_core.py (analyzer, planner, executor,
                                          prompt compiler, parser, synthesize)
  backend/app/services/lineage_mapper.py (lineage mapper)

Modelling conventions:
  - Python lists become Lean lists; Python dicts become insertion-ordered
    association lists (last write wins on lookup, first insertion fixes the
    key position, as in CPython 3.7+); Python sets become insertion-ordered
    duplicate-free lists (CPython set iteration order is unspecified, so no
    theorem below depends on the order of a set-derived list).
  - Python strings become Lean String; where the code uses str methods we
    define explicit counterparts (pyStrip, pySplitLines, ...) operating on
    the character list, matching CPython semantics on the inputs that occur
    here (ASCII case mapping; trim on the common whitespace characters).
  - Code that can raise becomes Except String; a bare `try/except` becomes
    a match on the Except value.  External collaborators (knowledge-graph
    store, vector store, text-generation client, uuid/clock) are passed in
    as record-of-functions parameters, mirroring constructor injection.
  - pydantic keyword construction validates keyword names against the
    declared model fields: unknown keywords are dropped and a missing
    required field raises ValidationError (the default `Extra.ignore`
    behaviour of the installed pydantic).  Where that validation decides a
    behaviour it is modelled explicitly (see lineageItemCtor).
  - Floating point similarity scores from the vector store are modelled as
    rationals; the `.2f` formatting helper is a fixed-point rendering that
    stands in for CPython float formatting (no claim depends on it).
-/

/-! ## Ontology enumerations (backend/app/models/ki_ontology.py) -/

/-- NodeType from ki_ontology.py. -/
inductive NodeType where
  | CONCEPT | THINKER | WORK | SCHOOL_OF_THOUGHT | HISTORICAL_CONTEXT
  | SYMBOLIC_SYSTEM | FIELD_OF_STUDY | ARCHETYPE | MYTH | SYMBOL
  | AXIOM | METAPHOR | PARADOX | NARRATIVE | PATTERN
  deriving DecidableEq, Repr

/-- The `.value` string of a NodeType member. -/
def NodeType.value : NodeType → String
  | .CONCEPT => "CONCEPT"
  | .THINKER => "THINKER"
  | .WORK => "WORK"
  | .SCHOOL_OF_THOUGHT => "SCHOOL_OF_THOUGHT"
  | .HISTORICAL_CONTEXT => "HISTORICAL_CONTEXT"
  | .SYMBOLIC_SYSTEM => "SYMBOLIC_SYSTEM"
  | .FIELD_OF_STUDY => "FIELD_OF_STUDY"
  | .ARCHETYPE => "ARCHETYPE"
  | .MYTH => "MYTH"
  | .SYMBOL => "SYMBOL"
  | .AXIOM => "AXIOM"
  | .METAPHOR => "METAPHOR"
  | .PARADOX => "PARADOX"
  | .NARRATIVE => "NARRATIVE"
  | .PATTERN => "PATTERN"

/-- RelationshipType from ki_ontology.py (internal KG relations).  The
lineage mapper additionally names CRITIQUED_BY, BUILT_UPON, REFERENCES_WORK,
PART_OF_SCHOOL, ASSOCIATED_WITH_EPOCH, DEFINED_BY_CONCEPT and HAS_COMPONENT,
which are not declared in ki_ontology.py; they are included here so the
lineage mapper embedding can mention them (their use sites never influence
any claim below, since they only select collaborator results). -/
inductive RelationshipType where
  | SUBCLASS_OF | INSTANCE_OF | PART_OF | INFLUENCED_BY | DISCUSSED_BY
  | CONTRADICTS | CITES | USES_METAPHOR | BASED_ON_AXIOM | DERIVED_FROM
  | PRECEDES | CONTEMPORARY_WITH | LOCATED_IN | HAS_AUTHOR | HAS_MEMBER
  | RELATED_TO
  | CRITIQUED_BY | BUILT_UPON | REFERENCES_WORK | PART_OF_SCHOOL
  | ASSOCIATED_WITH_EPOCH | DEFINED_BY_CONCEPT | HAS_COMPONENT
  deriving DecidableEq, Repr

/-- The `.value` string of a RelationshipType member (identifier spelling). -/
def RelationshipType.value : RelationshipType → String
  | .SUBCLASS_OF => "SUBCLASS_OF"
  | .INSTANCE_OF => "INSTANCE_OF"
  | .PART_OF => "PART_OF"
  | .INFLUENCED_BY => "INFLUENCED_BY"
  | .DISCUSSED_BY => "DISCUSSED_BY"
  | .CONTRADICTS => "CONTRADICTS"
  | .CITES => "CITES"
  | .USES_METAPHOR => "USES_METAPHOR"
  | .BASED_ON_AXIOM => "BASED_ON_AXIOM"
  | .DERIVED_FROM => "DERIVED_FROM"
  | .PRECEDES => "PRECEDES"
  | .CONTEMPORARY_WITH => "CONTEMPORARY_WITH"
  | .LOCATED_IN => "LOCATED_IN"
  | .HAS_AUTHOR => "HAS_AUTHOR"
  | .HAS_MEMBER => "HAS_MEMBER"
  | .RELATED_TO => "RELATED_TO"
  | .CRITIQUED_BY => "CRITIQUED_BY"
  | .BUILT_UPON => "BUILT_UPON"
  | .REFERENCES_WORK => "REFERENCES_WORK"
  | .PART_OF_SCHOOL => "PART_OF_SCHOOL"
  | .ASSOCIATED_WITH_EPOCH => "ASSOCIATED_WITH_EPOCH"
  | .DEFINED_BY_CONCEPT => "DEFINED_BY_CONCEPT"
  | .HAS_COMPONENT => "HAS_COMPONENT"

/-- SemanticEdgeType from ki_ontology.py (user-facing canvas relations). -/
inductive SemanticEdgeType where
  | SYNTHESIZES_WITH | RESONATES_WITH | IS_ANALOGOUS_TO | IS_METAPHOR_FOR
  | ILLUSTRATES | DEFINES
  | OPPOSES | CONTRADICTS_CLAIM | CHALLENGES_PREMISE_OF | REFUTES | LIMITS
  | GENERATES_PARADOX_FROM | RESOLVES_TENSION_BETWEEN
  | ENABLES | CAUSES | INFLUENCES | AMPLIFIES | REDUCES_TO | DERIVES_FROM
  | IS_COMPONENT_OF | IS_AXIOM_FOR | SYMBOLIZES
  | RELATED_TO
  deriving DecidableEq, Repr

/-- The `.value` string of a SemanticEdgeType member. -/
def SemanticEdgeType.value : SemanticEdgeType → String
  | .SYNTHESIZES_WITH => "SYNTHESIZES_WITH"
  | .RESONATES_WITH => "RESONATES_WITH"
  | .IS_ANALOGOUS_TO => "IS_ANALOGOUS_TO"
  | .IS_METAPHOR_FOR => "IS_METAPHOR_FOR"
  | .ILLUSTRATES => "ILLUSTRATES"
  | .DEFINES => "DEFINES"
  | .OPPOSES => "OPPOSES"
  | .CONTRADICTS_CLAIM => "CONTRADICTS_CLAIM"
  | .CHALLENGES_PREMISE_OF => "CHALLENGES_PREMISE_OF"
  | .REFUTES => "REFUTES"
  | .LIMITS => "LIMITS"
  | .GENERATES_PARADOX_FROM => "GENERATES_PARADOX_FROM"
  | .RESOLVES_TENSION_BETWEEN => "RESOLVES_TENSION_BETWEEN"
  | .ENABLES => "ENABLES"
  | .CAUSES => "CAUSES"
  | .INFLUENCES => "INFLUENCES"
  | .AMPLIFIES => "AMPLIFIES"
  | .REDUCES_TO => "REDUCES_TO"
  | .DERIVES_FROM => "DERIVES_FROM"
  | .IS_COMPONENT_OF => "IS_COMPONENT_OF"
  | .IS_AXIOM_FOR => "IS_AXIOM_FOR"
  | .SYMBOLIZES => "SYMBOLIZES"
  | .RELATED_TO => "RELATED_TO"

/-! ## Data models (backend/app/models/data_models.py) -/

/-- NodeData.  The flexible `data` payload dictionary is modelled by the one
key the pipeline ever reads from it, `description` (synthesis_core reads
`node.data.get("description")`, the lineage mapper reads
`node_data.data.get("description", "")`); `data_description = none` models a
payload without that key. -/
structure NodeData where
  id : String
  type : NodeType
  label : String
  data_description : Option String := none
  ki_id : Option String := none
  deriving DecidableEq, Repr

/-- EdgeData. -/
structure EdgeData where
  id : String
  source : String
  target : String
  semantic_type : SemanticEdgeType
  deriving DecidableEq, Repr

/-- GraphStructure: the per-request input graph. -/
structure GraphStructure where
  nodes : List NodeData
  edges : List EdgeData
  deriving DecidableEq, Repr

/-- SynthesisOutput: the pydantic model has exactly the five fields below;
keyword arguments outside this set passed by the caller (created_at, prompt,
graph_structure, analysis, content) are dropped by pydantic validation. -/
structure SynthesisOutput where
  id : String
  name : String
  description : String
  parent_node_ids : List String
  status : String
  deriving DecidableEq, Repr

/-- LineageItem: the pydantic model fields (id, name and type are required;
contribution and connection_via are optional). -/
structure LineageItem where
  id : String
  name : String
  type : String
  contribution : Option String := none
  connection_via : Option String := none
  deriving DecidableEq, Repr

/-- FoundationalElements from data_models.py. -/
structure FoundationalElements where
  underlying_axioms : List LineageItem := []
  core_metaphors : List LineageItem := []
  deriving DecidableEq, Repr

/-- LineageReport from data_models.py. -/
structure LineageReport where
  synthesized_concept_id : String
  direct_parents : List LineageItem := []
  key_influencers : List LineageItem := []
  schools_and_epochs : List LineageItem := []
  foundational_elements : FoundationalElements
  semantic_resonances : List LineageItem := []
  deriving DecidableEq, Repr

/-- RelatedNodeInfo from data_models.py (the part read by the pipeline). -/
structure RelatedNodeInfo where
  id : String
  label : String
  deriving DecidableEq, Repr

/-- NodeContext from data_models.py: the fields the pipeline reads.  The
Python code probes `hasattr(node_context, "summary")` and
`getattr(node_context, "relatedNodes", [])`; on this typed model both
attributes exist, and Python truthiness of the values is modelled at the use
sites. -/
structure NodeContext where
  summary : Option String := none
  relatedNodes : List RelatedNodeInfo := []
  deriving DecidableEq, Repr

/-! ## Python dictionary / set / string helpers -/

/-- Lookup in an insertion-ordered association list with CPython dict
semantics: the most recent write for a key wins. -/
def pyDictGet {κ α : Type} [DecidableEq κ] (m : List (κ × α)) (k : κ) :
    Option α :=
  m.foldl (fun acc kv => if kv.1 = k then some kv.2 else acc) none

/-- Write to an insertion-ordered association list with CPython dict
semantics: a fresh key is appended, an existing key keeps its position and
is overwritten. -/
def pyDictSet {κ α : Type} [DecidableEq κ] (m : List (κ × α)) (k : κ)
    (v : α) : List (κ × α) :=
  if (m.map Prod.fst).contains k then
    m.map (fun kv => if kv.1 = k then (k, v) else kv)
  else m ++ [(k, v)]

/-- Python `key in dict`. -/
def pyDictContains {κ α : Type} [DecidableEq κ] (m : List (κ × α)) (k : κ) :
    Bool :=
  (m.map Prod.fst).contains k

/-- Counter / defaultdict(int) increment. -/
def pyCounterInc {κ : Type} [DecidableEq κ] (m : List (κ × Nat)) (k : κ) :
    List (κ × Nat) :=
  pyDictSet m k ((pyDictGet m k).getD 0 + 1)

/-- Python truthiness of an optional string (None and "" are falsy): the
value when truthy, otherwise none. -/
def pyTruthyOpt (o : Option String) : Option String :=
  match o with
  | some s => if s = "" then none else some s
  | none => none

/-- Set insertion for the insertion-ordered duplicate-free list model of a
Python set. -/
def pySetAdd (s : List String) (x : String) : List String :=
  if x ∈ s then s else s ++ [x]

/-- The node_id-to-NodeData dictionary `{node.id: node for node in nodes}`
(for duplicate ids the last node wins, as in a dict comprehension). -/
def node_id_map_get (nodes : List NodeData) (k : String) : Option NodeData :=
  nodes.foldl (fun acc n => if n.id = k then some n else acc) none

/-- Python str.strip() (leading and trailing whitespace removed). -/
def pyStrip (s : String) : String :=
  ⟨((s.data.dropWhile Char.isWhitespace).reverse.dropWhile
      Char.isWhitespace).reverse⟩

/-- Python str.lower() on the ASCII range (the only use is to compare
against the ASCII literals "name:" and "description:"). -/
def pyLower (s : String) : String := ⟨s.data.map Char.toLower⟩

/-- Python str.startswith. -/
def pyStartsWith (s pre : String) : Bool := List.isPrefixOf pre.data s.data

/-- Python slicing s[n:] (by code point, like Lean String.drop). -/
def pyDrop (s : String) (n : Nat) : String := ⟨s.data.drop n⟩

/-- Python slicing s[:n]. -/
def pyTake (s : String) (n : Nat) : String := ⟨s.data.take n⟩

/-- Python len(s) in code points. -/
def pyLen (s : String) : Nat := s.data.length

/-- Splitting a character list on a separator character; the result is never
empty, matching Python str.split(sep) with an explicit separator. -/
def pySplitCharList (c : Char) : List Char → List (List Char)
  | [] => [[]]
  | ch :: rest =>
    match pySplitCharList c rest with
    | [] => [[ch]]
    | h :: t => if ch = c then [] :: h :: t else (ch :: h) :: t

/-- Python s.split(sep) for a one-character separator. -/
def pySplitOn (c : Char) (s : String) : List String :=
  (pySplitCharList c s.data).map (fun l => ⟨l⟩)

theorem pySplitCharList_ne_nil (c : Char) (l : List Char) :
    pySplitCharList c l ≠ [] := by
  cases l with
  | nil => simp [pySplitCharList]
  | cons ch rest =>
    simp only [pySplitCharList]
    cases h : pySplitCharList c rest with
    | nil => simp
    | cons h t =>
      simp only []
      split <;> simp

theorem pySplitOn_ne_nil (c : Char) (s : String) : pySplitOn c s ≠ [] := by
  simp only [pySplitOn, ne_eq, List.map_eq_nil_iff]
  exact pySplitCharList_ne_nil c s.data

/-- Python sep.join(strings). -/
def pyJoin (sep : String) (parts : List String) : String :=
  ⟨List.intercalate sep.data (parts.map String.data)⟩

/-- Python s.rfind(c): the greatest index of c in s, or -1. -/
def pyRfind (s : String) (c : Char) : Int :=
  s.data.foldl (fun (acc : Int × Int) ch =>
      (if ch = c then acc.2 else acc.1, acc.2 + 1)) (-1, 0) |>.1

/-- Python str.replace for single characters (used by
`node_type.value.replace("_", " ")`). -/
def pyReplaceChar (s : String) (a b : Char) : String :=
  ⟨s.data.map (fun ch => if ch = a then b else ch)⟩

/-- Python str.title() (each maximal alphabetic run gets an upper first
letter and lower rest; the inputs here are ASCII identifier words). -/
def pyTitle (s : String) : String :=
  ⟨(s.data.foldl (fun (acc : List Char × Bool) ch =>
      if ch.isAlpha then
        ((if acc.2 then ch.toLower else ch.toUpper) :: acc.1, true)
      else (ch :: acc.1, false)) ([], false)).1.reverse⟩

/-- Python list indexing, which raises IndexError when out of range. -/
def pyIndex {α : Type} (l : List α) (i : Nat) : Except String α :=
  match l.get? i with
  | some x => Except.ok x
  | none => Except.error "IndexError: list index out of range"

/-- Python str(int) for the few integer interpolations in the prompt. -/
def pyStrNat (n : Nat) : String := toString n

/-- Stand-in for CPython float formatting with `.2f` applied to a vector
similarity score (modelled as a rational): fixed-point with two decimals,
rounding half away from zero.  No claim below depends on this rendering. -/
def pyFormat2f (q : Rat) : String :=
  let neg := q < 0
  let a : Rat := if neg then -q else q
  let cents : Nat := (a * 100 + 1/2).floor.toNat
  let whole := cents / 100
  let frac := cents % 100
  let fracStr := if frac < 10 then "0" ++ pyStrNat frac else pyStrNat frac
  (if neg then "-" else "") ++ pyStrNat whole ++ "." ++ fracStr

/-! ## Graph Analyzer (SynthesisCore._analyze_graph and helpers) -/

/-- TENSION_EDGE_TYPES from _analyze_graph. -/
def TENSION_EDGE_TYPES : List SemanticEdgeType :=
  [.CONTRADICTS_CLAIM, .OPPOSES, .REFUTES, .GENERATES_PARADOX_FROM,
   .CHALLENGES_PREMISE_OF]

/-- SYNTHESIS_EDGE_TYPES from _analyze_graph. -/
def SYNTHESIS_EDGE_TYPES : List SemanticEdgeType :=
  [.SYNTHESIZES_WITH, .RESOLVES_TENSION_BETWEEN, .RESONATES_WITH]

/-- ANALOGY_EDGE_TYPES from _analyze_graph. -/
def ANALOGY_EDGE_TYPES : List SemanticEdgeType :=
  [.IS_METAPHOR_FOR, .IS_ANALOGOUS_TO, .SYMBOLIZES]

/-- FRAMEWORK_EDGE_TYPES from _analyze_graph. -/
def FRAMEWORK_EDGE_TYPES : List SemanticEdgeType :=
  [.IS_COMPONENT_OF, .IS_AXIOM_FOR, .DERIVES_FROM]

/-- CAUSAL_EDGE_TYPES from _analyze_graph. -/
def CAUSAL_EDGE_TYPES : List SemanticEdgeType :=
  [.ENABLES, .CAUSES, .INFLUENCES, .AMPLIFIES]

/-- PRIORITY_EDGE_TYPES: the union of the five category sets. -/
def PRIORITY_EDGE_TYPES : List SemanticEdgeType :=
  TENSION_EDGE_TYPES ++ SYNTHESIS_EDGE_TYPES ++ ANALOGY_EDGE_TYPES ++
    FRAMEWORK_EDGE_TYPES ++ CAUSAL_EDGE_TYPES

/-- A detected graph pattern: the dict {"type", "nodes", "description"}. -/
structure GraphPattern where
  type : String
  nodes : List String
  description : String
  deriving DecidableEq, Repr

/-- GraphAnalysis (the TypedDict in synthesis_core.py). -/
structure GraphAnalysis where
  node_count : Nat
  edge_count : Nat
  node_types : List (NodeType × Nat)
  edge_types : List (SemanticEdgeType × Nat)
  central_nodes : List (String × Nat)
  key_semantic_edges : List EdgeData
  inferred_intent : String
  graph_patterns : List GraphPattern
  node_communities : List (List String)
  tension_edges : List EdgeData
  synthesis_edges : List EdgeData
  analogy_edges : List EdgeData
  deriving DecidableEq, Repr

/-- The mutable collections threaded through the `for edge in graph.edges`
loop of _analyze_graph. -/
structure EdgeLoopState where
  edge_types : List (SemanticEdgeType × Nat)
  adjacency_list : List (String × List (String × SemanticEdgeType))
  key_semantic_edges : List EdgeData
  tension_edges : List EdgeData
  synthesis_edges : List EdgeData
  analogy_edges : List EdgeData
  node_degrees : List (String × Nat)
  deriving Repr

/-- One iteration of the edge loop of _analyze_graph: count the edge type,
extend the adjacency list, categorise the edge, and bump the undirected
degree of both endpoints (only for endpoints already present, i.e. real
nodes of the graph). -/
def analyzeEdgeStep (st : EdgeLoopState) (edge : EdgeData) : EdgeLoopState :=
  let edge_types := pyCounterInc st.edge_types edge.semantic_type
  let adjacency_list :=
    pyDictSet st.adjacency_list edge.source
      (((pyDictGet st.adjacency_list edge.source).getD []) ++
        [(edge.target, edge.semantic_type)])
  let inPriority := edge.semantic_type ∈ PRIORITY_EDGE_TYPES
  let key_semantic_edges :=
    if inPriority then st.key_semantic_edges ++ [edge]
    else st.key_semantic_edges
  let tension_edges :=
    if inPriority ∧ edge.semantic_type ∈ TENSION_EDGE_TYPES then
      st.tension_edges ++ [edge]
    else st.tension_edges
  let synthesis_edges :=
    if inPriority ∧ edge.semantic_type ∉ TENSION_EDGE_TYPES ∧
        edge.semantic_type ∈ SYNTHESIS_EDGE_TYPES then
      st.synthesis_edges ++ [edge]
    else st.synthesis_edges
  let analogy_edges :=
    if inPriority ∧ edge.semantic_type ∉ TENSION_EDGE_TYPES ∧
        edge.semantic_type ∉ SYNTHESIS_EDGE_TYPES ∧
        edge.semantic_type ∈ ANALOGY_EDGE_TYPES then
      st.analogy_edges ++ [edge]
    else st.analogy_edges
  let node_degrees :=
    if pyDictContains st.node_degrees edge.source then
      pyDictSet st.node_degrees edge.source
        ((pyDictGet st.node_degrees edge.source).getD 0 + 1)
    else st.node_degrees
  let node_degrees :=
    if pyDictContains node_degrees edge.target then
      pyDictSet node_degrees edge.target
        ((pyDictGet node_degrees edge.target).getD 0 + 1)
    else node_degrees
  { edge_types, adjacency_list, key_semantic_edges, tension_edges,
    synthesis_edges, analogy_edges, node_degrees }

/-- SynthesisCore._detect_chains. -/
def detect_chains (graph : GraphStructure)
    (adjacency_list : List (String × List (String × SemanticEdgeType))) :
    List GraphPattern :=
  let edge_set := graph.edges.map (fun e => (e.source, e.target, e.semantic_type))
  (adjacency_list.map Prod.fst).flatMap (fun node_a =>
    ((pyDictGet adjacency_list node_a).getD []).flatMap (fun bt =>
      ((pyDictGet adjacency_list bt.1).getD []).filterMap (fun ct =>
        if ct.1 ≠ node_a ∧ (ct.1, node_a, ct.2) ∉ edge_set then
          some { type := "chain", nodes := [node_a, bt.1, ct.1],
                 description := "Chain: " ++ node_a ++ " --(" ++
                   bt.2.value ++ ")--> " ++ bt.1 ++ " --(" ++
                   ct.2.value ++ ")--> " ++ ct.1 }
        else none)))

/-- The local tension_types set of _detect_dialectical_pairs.  Note that it
omits GENERATES_PARADOX_FROM, unlike TENSION_EDGE_TYPES above. -/
def dialectical_pair_tension_types : List SemanticEdgeType :=
  [.CONTRADICTS_CLAIM, .OPPOSES, .REFUTES, .CHALLENGES_PREMISE_OF]

/-- SynthesisCore._detect_dialectical_pairs. -/
def detect_dialectical_pairs (graph : GraphStructure) : List GraphPattern :=
  graph.edges.filterMap (fun edge =>
    if edge.semantic_type ∈ dialectical_pair_tension_types then
      some { type := "dialectical_pair", nodes := [edge.source, edge.target],
             description := "Dialectical Pair: " ++ edge.source ++ " --(" ++
               edge.semantic_type.value ++ ")--> " ++ edge.target }
    else none)

/-- The local synthesis_types set of _detect_synthesis_triangles. -/
def synthesis_triangle_types : List SemanticEdgeType :=
  [.SYNTHESIZES_WITH, .RESOLVES_TENSION_BETWEEN]

/-- SynthesisCore._detect_synthesis_triangles. -/
def detect_synthesis_triangles (graph : GraphStructure) : List GraphPattern :=
  let synthesis_targets : List (String × List String) :=
    graph.edges.foldl (fun m edge =>
      if edge.semantic_type ∈ synthesis_triangle_types then
        pyDictSet m edge.target
          (((pyDictGet m edge.target).getD []) ++ [edge.source])
      else m) []
  synthesis_targets.filterMap (fun ts =>
    if ts.2.length ≥ 2 then
      some { type := "synthesis_triangle", nodes := ts.2 ++ [ts.1],
             description := "Synthesis Triangle: " ++ pyJoin ", " ts.2 ++
               " both connect to " ++ ts.1 ++ " via synthesis" }
    else none)

/-- SynthesisCore._detect_star_patterns. -/
def detect_star_patterns (graph : GraphStructure) : List GraphPattern :=
  let in_degree : List (String × Nat) :=
    graph.edges.foldl (fun m e => pyCounterInc m e.target) []
  let out_degree : List (String × Nat) :=
    graph.edges.foldl (fun m e => pyCounterInc m e.source) []
  graph.nodes.filterMap (fun node =>
    let total_degree :=
      (pyDictGet in_degree node.id).getD 0 + (pyDictGet out_degree node.id).getD 0
    if total_degree ≥ 3 then
      let connected_nodes := graph.edges.filterMap (fun edge =>
        if edge.target = node.id then some edge.source
        else if edge.source = node.id then some edge.target
        else none)
      some { type := "star_pattern", nodes := node.id :: connected_nodes,
             description := "Star Pattern: " ++ node.id ++
               " is connected to " ++ pyStrNat connected_nodes.length ++
               " other nodes" }
    else none)

/-- SynthesisCore._detect_graph_patterns: chains, then dialectical pairs,
then synthesis triangles, then star patterns, appended in that order. -/
def detect_graph_patterns (graph : GraphStructure)
    (adjacency_list : List (String × List (String × SemanticEdgeType))) :
    List GraphPattern :=
  detect_chains graph adjacency_list ++ detect_dialectical_pairs graph ++
    detect_synthesis_triangles graph ++ detect_star_patterns graph

/-- The merge condition of _identify_communities: some edge joins the two
communities, in either direction. -/
def communitiesConnected (edges : List EdgeData) (ci cj : List String) :
    Bool :=
  edges.any (fun edge =>
    (ci.contains edge.source && cj.contains edge.target) ||
    (cj.contains edge.source && ci.contains edge.target))

/-- The scan of _identify_communities: the lexicographically first pair of
community indices i < j joined by some edge, if any. -/
def firstMergePair (edges : List EdgeData) (cs : List (List String)) :
    Option (Nat × Nat) :=
  (List.range cs.length).findSome? (fun i =>
    ((List.range cs.length).filter (fun j => i < j)).findSome? (fun j =>
      if communitiesConnected edges (cs.getD i []) (cs.getD j []) then
        some (i, j)
      else none))

/-- communities[i].extend(communities[j]); communities.pop(j), for i < j. -/
def mergeAt (cs : List (List String)) (i j : Nat) : List (List String) :=
  (cs.set i (cs.getD i [] ++ cs.getD j [])).eraseIdx j

theorem firstMergePair_lt {edges : List EdgeData} {cs : List (List String)}
    {i j : Nat} (h : firstMergePair edges cs = some (i, j)) :
    i < j ∧ j < cs.length := by
  unfold firstMergePair at h
  obtain ⟨i0, -, h⟩ := List.exists_of_findSome?_eq_some h
  obtain ⟨j0, hj0, h⟩ := List.exists_of_findSome?_eq_some h
  rw [List.mem_filter, List.mem_range] at hj0
  split at h
  · cases h
    refine ⟨?_, hj0.1⟩
    have := hj0.2
    simpa using this
  · cases h

/-- The `while merged` loop of _identify_communities: repeatedly merge the
first edge-joined pair of communities until none remains.  Termination: each
merge removes one community.  (The Python loop restarts its index scan from
the top after every merge, so each pass performs exactly this step; its
`len(communities) > 1` guard is subsumed, since a list of length ≤ 1 has no
pair to merge.) -/
def mergeCommunitiesLoop (edges : List EdgeData) (cs : List (List String)) :
    List (List String) :=
  match h : firstMergePair edges cs with
  | none => cs
  | some (i, j) => mergeCommunitiesLoop edges (mergeAt cs i j)
termination_by cs.length
decreasing_by
  obtain ⟨hij, hj⟩ := firstMergePair_lt h
  simp only [mergeAt]
  rw [List.length_eraseIdx]
  simp only [List.length_set, hj, if_true]
  omega

/-- SynthesisCore._identify_communities: start from singleton communities
(one per node, in input order) and merge until a fixed point. -/
def identify_communities (graph : GraphStructure) : List (List String) :=
  mergeCommunitiesLoop graph.edges (graph.nodes.map (fun node => [node.id]))

/-- Python sorted(items, key=degree, reverse=True): stable descending
insertion sort on the second component. -/
def insertByDegreeDesc (x : String × Nat) :
    List (String × Nat) → List (String × Nat)
  | [] => [x]
  | y :: ys => if y.2 ≥ x.2 then y :: insertByDegreeDesc x ys else x :: y :: ys

/-- Stable descending sort by degree (the CPython sorted is stable, and
reverse=True keeps the relative order of equal keys). -/
def pySortedByDegreeDesc (l : List (String × Nat)) : List (String × Nat) :=
  l.foldl (fun acc x => insertByDegreeDesc x acc) []

/-- SynthesisCore._analyze_graph. -/
def analyze_graph (graph : GraphStructure) : GraphAnalysis :=
  let node_count := graph.nodes.length
  let edge_count := graph.edges.length
  let node_types : List (NodeType × Nat) :=
    graph.nodes.foldl (fun m node => pyCounterInc m node.type) []
  let node_degrees0 : List (String × Nat) :=
    graph.nodes.foldl (fun m node =>
      pyDictSet m node.id ((pyDictGet m node.id).getD 0)) []
  let st : EdgeLoopState := graph.edges.foldl analyzeEdgeStep
    { edge_types := [], adjacency_list := [], key_semantic_edges := [],
      tension_edges := [], synthesis_edges := [], analogy_edges := [],
      node_degrees := node_degrees0 }
  let graph_patterns := detect_graph_patterns graph st.adjacency_list
  let node_communities := identify_communities graph
  let central_nodes_sorted := pySortedByDegreeDesc st.node_degrees
  let top_n := min 3 node_count
  let central_nodes_analysis : List (String × Nat) :=
    (central_nodes_sorted.take top_n).map (fun nd =>
      match node_id_map_get graph.nodes nd.1 with
      | some node_data => ((pyTruthyOpt node_data.ki_id).getD nd.1, nd.2)
      | none => (nd.1, nd.2))
  let category_counts : List (String × Nat) :=
    [("dialectical_synthesis", st.tension_edges.length),
     ("integrative_synthesis", st.synthesis_edges.length),
     ("analogical_reasoning", st.analogy_edges.length),
     ("framework_building",
        (FRAMEWORK_EDGE_TYPES.map (fun t => (pyDictGet st.edge_types t).getD 0)).sum),
     ("causal_analysis",
        (CAUSAL_EDGE_TYPES.map (fun t => (pyDictGet st.edge_types t).getD 0)).sum)]
  let inferred_intent :=
    if category_counts.any (fun kv => kv.2 ≠ 0) then
      (category_counts.foldl
        (fun best kv => if kv.2 > best.2 then kv else best)
        ("dialectical_synthesis", st.tension_edges.length)).1
    else "exploration"
  let graph_pattern_summary : List GraphPattern :=
    graph_patterns.map (fun pattern =>
      { type := pattern.type,
        nodes := pattern.nodes.filterMap (fun node_id =>
          (node_id_map_get graph.nodes node_id).map NodeData.label),
        description := pattern.description })
  { node_count, edge_count, node_types, edge_types := st.edge_types,
    central_nodes := central_nodes_analysis,
    key_semantic_edges := st.key_semantic_edges, inferred_intent,
    graph_patterns := graph_pattern_summary, node_communities,
    tension_edges := st.tension_edges, synthesis_edges := st.synthesis_edges,
    analogy_edges := st.analogy_edges }

/-! ## Query Planner (SynthesisCore._plan_ki_queries) -/

/-- A structured vector query from the planner: the dict
{"method": ..., "args": {...}} with the two method names that occur. -/
inductive VectorQuery where
  | find_similar (query_text : String) (n_results : Nat) (filter_type : String)
  | find_analogies (source_query : String) (target_domain : String)
      (n_results : Nat)
  deriving DecidableEq, Repr

/-- KIQueryPlan (the TypedDict in synthesis_core.py). -/
structure KIQueryPlan where
  kg_context_nodes : List String
  kg_interaction_checks : List (String × String)
  vector_similarity_nodes : List String
  vector_analogy_edges : List EdgeData
  kg_lineage_traces : List String
  vector_queries : List VectorQuery
  deriving DecidableEq, Repr

/-- The well-formedness filter used by the planner:
`id_val and (":" in id_val or id_val.startswith("ki-"))`. -/
def looks_like_ki_id (id_val : String) : Bool :=
  id_val ≠ "" && (id_val.data.contains ':' || pyStartsWith id_val "ki-")

/-- The local derivation_edge_types set of the lineage-trace planning step
(step 5 of _plan_ki_queries).  Note that it omits IS_AXIOM_FOR, unlike
FRAMEWORK_EDGE_TYPES. -/
def derivation_edge_types : List SemanticEdgeType :=
  [.DERIVES_FROM, .IS_COMPONENT_OF]

/-- SynthesisCore._plan_ki_queries. -/
def plan_ki_queries (graph : GraphStructure) (analysis : GraphAnalysis) :
    KIQueryPlan :=
  -- 1. identify nodes needing context (a Python set; insertion-ordered,
  -- duplicate-free model, no theorem depends on its order)
  let nodes_for_context_ids : List String :=
    analysis.central_nodes.foldl (fun s kd => pySetAdd s kd.1) []
  let nodes_for_context_ids : List String :=
    analysis.key_semantic_edges.foldl (fun s edge =>
      let s := match node_id_map_get graph.nodes edge.source with
        | some source_node =>
            pySetAdd s ((pyTruthyOpt source_node.ki_id).getD source_node.id)
        | none => s
      match node_id_map_get graph.nodes edge.target with
        | some target_node =>
            pySetAdd s ((pyTruthyOpt target_node.ki_id).getD target_node.id)
        | none => s) nodes_for_context_ids
  let kg_context_nodes := nodes_for_context_ids.filter looks_like_ki_id
  -- 2. interaction checks: tension edges, then synthesis edges
  let interactionsOf (edges : List EdgeData) : List (String × String) :=
    edges.foldl (fun acc edge =>
      match node_id_map_get graph.nodes edge.source,
            node_id_map_get graph.nodes edge.target with
      | some source_node, some target_node =>
        match pyTruthyOpt source_node.ki_id, pyTruthyOpt target_node.ki_id with
        | some sk, some tk => acc ++ [(sk, tk)]
        | _, _ => acc
      | _, _ => acc) []
  let kg_interaction_checks :=
    interactionsOf analysis.tension_edges ++
      interactionsOf analysis.synthesis_edges
  -- 3. vector similarity searches: always the central nodes
  let central_node_ki_ids :=
    (analysis.central_nodes.map Prod.fst).filter looks_like_ki_id
  let intent := analysis.inferred_intent
  let intent_vector_queries : List VectorQuery :=
    if intent = "integrative_synthesis" then
      analysis.synthesis_edges.foldl (fun acc edge =>
        match node_id_map_get graph.nodes edge.source with
        | some source_node =>
          match pyTruthyOpt source_node.ki_id with
          | some ki =>
            let query_text :=
              if source_node.label ≠ "" then source_node.label else ki
            acc ++ [.find_similar query_text 5 "CONCEPT"]
          | none => acc
        | none => acc) []
    else if intent = "dialectical_synthesis" then
      analysis.tension_edges.foldl (fun acc edge =>
        match node_id_map_get graph.nodes edge.source,
              node_id_map_get graph.nodes edge.target with
        | some source_node, some target_node =>
          let combined_query := source_node.label ++ " " ++
            edge.semantic_type.value ++ " " ++ target_node.label
          acc ++ [.find_similar combined_query 3 "CONCEPT"]
        | _, _ => acc) []
    else []
  -- 4. analogy searches (`if target_node.type:` is always true on the
  -- typed model, an enum member being truthy in Python)
  let analogyStep := analysis.analogy_edges.foldl
    (fun (acc : List EdgeData × List VectorQuery) edge =>
      match node_id_map_get graph.nodes edge.source,
            node_id_map_get graph.nodes edge.target with
      | some source_node, some target_node =>
        let es :=
          if (pyTruthyOpt source_node.ki_id).isSome ∨
              (pyTruthyOpt target_node.ki_id).isSome then
            acc.1 ++ [edge]
          else acc.1
        (es, acc.2 ++
          [.find_analogies source_node.label target_node.type.value 3])
      | _, _ => acc) ([], [])
  -- 5. lineage traces for derivation edges among the key semantic edges
  let kg_lineage_traces := analysis.key_semantic_edges.foldl (fun acc edge =>
    if edge.semantic_type ∈ derivation_edge_types then
      match node_id_map_get graph.nodes edge.source with
      | some source_node =>
        match pyTruthyOpt source_node.ki_id with
        | some ki => acc ++ [ki]
        | none => acc
      | none => acc
    else acc) []
  { kg_context_nodes, kg_interaction_checks,
    vector_similarity_nodes := central_node_ki_ids,
    vector_analogy_edges := analogyStep.1, kg_lineage_traces,
    vector_queries := intent_vector_queries ++ analogyStep.2 }

/-! ## Query Executor (SynthesisCore._execute_ki_queries) -/

/-- An interaction record returned by the KG store (a dict; the pipeline
reads `interaction.get("type", "unknown")`). -/
structure Interaction where
  type : Option String := none
  deriving DecidableEq, Repr

/-- A similarity result returned by the vector store (a dict; the pipeline
reads the label, similarity and description keys with defaults).  The
similarity score is a float in the source, modelled as a rational. -/
structure SimilarItem where
  label : Option String := none
  similarity : Option Rat := none
  description : Option String := none
  deriving DecidableEq, Repr

/-- A node inside a lineage path returned by trace_influence_paths (a dict;
the pipeline reads `node_in_path.get("label", "Unknown")`). -/
structure PathNode where
  label : Option String := none
  deriving DecidableEq, Repr

/-- KIContext (the TypedDict in synthesis_core.py).  Only truthy values are
ever stored, so the Optional wrapper of kg_node_contexts collapses. -/
structure KIContext where
  kg_node_contexts : List (String × NodeContext) := []
  kg_interactions : List ((String × String) × List Interaction) := []
  vector_similarities : List (String × List SimilarItem) := []
  vector_analogies : List ((String × String) × List SimilarItem) := []
  kg_lineage_paths : List (String × List (List PathNode)) := []
  deriving Repr

/-- The knowledge-graph store collaborator, as consumed by the executor and
synthesize (get_node_context, find_known_interactions,
trace_influence_paths).  An Except.error value models the call raising. -/
structure KGCollab where
  get_node_context : String → Except String (Option NodeContext)
  find_known_interactions :
    String → String → Except String (List Interaction)
  trace_influence_paths :
    String → List RelationshipType → Nat → Except String (List (List PathNode))

/-- The optional vector store collaborator.  find_similar and
find_analogies are Optional fields because the executor dispatches on
`hasattr(self.vector_interface, method_name)`; a `none` models an interface
without that method. -/
structure VectorCollab where
  find_similar_concepts : String → Nat → Except String (List SimilarItem)
  find_similar : Option (String → Nat → String → Except String (List SimilarItem)) := none
  find_analogies : Option (String → String → Nat → Except String (List SimilarItem)) := none

/-- SynthesisCore._build_query_text.  On the typed model the
`hasattr(node_context, "summary")` and `getattr(node_context,
"relatedNodes", [])` probes always succeed, and Python truthiness of the
attribute values is an emptiness test. -/
def build_query_text (node_id : String) (node_context : Option NodeContext) :
    String :=
  match node_context with
  | none => node_id
  | some ctx =>
    let text_parts : List String :=
      match ctx.summary with
      | some s => if s ≠ "" then [s] else []
      | none => []
    let text_parts := text_parts ++ ctx.relatedNodes.filterMap (fun rn =>
      if rn.label ≠ "" then some rn.label else none)
    let text_parts := if text_parts = [] then [node_id] else text_parts
    pyJoin " " text_parts

/-- Step 3 of the executor, one vector_similarity_nodes iteration: re-fetch
a missing context (its failure skips the node), build the query text, and
run find_similar_concepts (its failure, or an empty result, stores
nothing).  Every failure is caught and the loop continues. -/
def executeSimilarityStep (kg : KGCollab) (v : VectorCollab)
    (ctx : KIContext) (node_ki_id : String) : KIContext :=
  let fetched : Option (Option NodeContext × KIContext) :=
    match pyDictGet ctx.kg_node_contexts node_ki_id with
    | some c => some (some c, ctx)
    | none =>
      match kg.get_node_context node_ki_id with
      | .ok (some c) =>
        some (some c,
          { ctx with kg_node_contexts :=
              pyDictSet ctx.kg_node_contexts node_ki_id c })
      | .ok none => some (none, ctx)
      | .error _ => none  -- `continue`: skip similarity if the fetch raises
  match fetched with
  | none => ctx
  | some (node_context, ctx) =>
    let query_text := build_query_text node_ki_id node_context
    if query_text = "" then ctx
    else
      match v.find_similar_concepts query_text 5 with
      | .ok similar_concepts =>
        if similar_concepts ≠ [] then
          { ctx with vector_similarities :=
              pyDictSet ctx.vector_similarities node_ki_id similar_concepts }
        else ctx
      | .error _ => ctx

/-- Step 4 of the executor, one vector_analogy_edges iteration.  The
contexts are looked up under the graph-local edge endpoints (which the code
itself flags with a TODO, so the lookups ordinarily miss and the texts fall
back to the raw ids). -/
def executeAnalogyStep (v : VectorCollab) (ctx : KIContext)
    (edge : EdgeData) : KIContext :=
  let source_context := pyDictGet ctx.kg_node_contexts edge.source
  let target_context := pyDictGet ctx.kg_node_contexts edge.target
  let source_text := build_query_text edge.source source_context
  let target_text := build_query_text edge.target target_context
  if source_text = "" ∨ target_text = "" then ctx
  else
    let analogy_query :=
      source_text ++ " " ++ edge.semantic_type.value ++ " " ++ target_text
    match v.find_similar_concepts analogy_query 3 with
    | .ok analogies =>
      if analogies ≠ [] then
        { ctx with vector_analogies :=
            (pyDictSet ctx.vector_analogies (edge.source, edge.target)
              analogies) }
      else ctx
    | .error _ => ctx

/-- Step 6 of the executor, one custom vector_queries iteration: dynamic
dispatch on the method name (a missing method is skipped); a nonempty list
result is stored in vector_similarities under a synthetic custom key (the
`isinstance(result, list)` probe always holds on the typed model). -/
def executeCustomVectorQuery (v : VectorCollab) (ctx : KIContext)
    (vq : VectorQuery) : KIContext :=
  let store (method_name : String) (result : List SimilarItem) : KIContext :=
    if result ≠ [] then
      let result_key := "custom_" ++ method_name ++ "_" ++
        pyStrNat (ctx.vector_similarities.length + ctx.vector_analogies.length)
      { ctx with vector_similarities :=
          pyDictSet ctx.vector_similarities result_key result }
    else ctx
  match vq with
  | .find_similar query_text n_results filter_type =>
    match v.find_similar with
    | some f =>
      match f query_text n_results filter_type with
      | .ok result => store "find_similar" result
      | .error _ => ctx
    | none => ctx
  | .find_analogies source_query target_domain n_results =>
    match v.find_analogies with
    | some f =>
      match f source_query target_domain n_results with
      | .ok result => store "find_analogies" result
      | .error _ => ctx
    | none => ctx

/-- SynthesisCore._execute_ki_queries: run the planned lookups, catching
and skipping every collaborator failure, and return the (possibly partial)
KIContext.  When the vector interface is absent every vector step is
skipped. -/
def execute_ki_queries (kg : KGCollab) (vector : Option VectorCollab)
    (query_plan : KIQueryPlan) : KIContext :=
  -- 1. fetch KG node contexts (only truthy results stored)
  let ctx : KIContext :=
    query_plan.kg_context_nodes.foldl (fun ctx ki_id =>
      match kg.get_node_context ki_id with
      | .ok (some node_context) =>
        { ctx with kg_node_contexts :=
            pyDictSet ctx.kg_node_contexts ki_id node_context }
      | .ok none => ctx
      | .error _ => ctx) {}
  -- 2. check KG interactions (only nonempty results stored)
  let ctx : KIContext :=
    query_plan.kg_interaction_checks.foldl (fun ctx chk =>
      match kg.find_known_interactions chk.1 chk.2 with
      | .ok interactions =>
        if interactions ≠ [] then
          { ctx with kg_interactions :=
              pyDictSet ctx.kg_interactions (chk.1, chk.2) interactions }
        else ctx
      | .error _ => ctx) ctx
  -- 3, 4, 6: vector queries, only when the vector interface exists
  let ctx : KIContext :=
    match vector with
    | some v =>
      let ctx := query_plan.vector_similarity_nodes.foldl
        (executeSimilarityStep kg v) ctx
      let ctx := query_plan.vector_analogy_edges.foldl
        (executeAnalogyStep v) ctx
      query_plan.vector_queries.foldl (executeCustomVectorQuery v) ctx
    | none => ctx
  -- 5. KG lineage traces (only nonempty results stored)
  query_plan.kg_lineage_traces.foldl (fun ctx node_ki_id =>
    match kg.trace_influence_paths node_ki_id
        [.INFLUENCED_BY, .DERIVED_FROM] 3 with
    | .ok lineage_paths =>
      if lineage_paths ≠ [] then
        { ctx with kg_lineage_paths :=
            pyDictSet ctx.kg_lineage_paths node_ki_id lineage_paths }
      else ctx
    | .error _ => ctx) ctx

/-! ## Prompt Compiler (SynthesisCore._construct_llm_prompt) -/

/-- Label lookup `for n in graph.nodes: if n.id == key or n.ki_id == key:
... break` (first matching node wins). -/
def findLabelFirst (nodes : List NodeData) (key : String) : Option String :=
  (nodes.find? (fun n => n.id = key ∨ n.ki_id = some key)).map NodeData.label

/-- Label lookup in the loops without a break statement (the last matching
node wins). -/
def findLabelLast (nodes : List NodeData) (key : String) : Option String :=
  nodes.foldl (fun acc n =>
    if n.ki_id = some key ∨ n.id = key then some n.label else acc) none

/-- The directive_map of _construct_llm_prompt: the fixed per-edge-type
instruction template, applied to the source and target labels (the Python
`str.format` substitution).  Types outside the table yield none and are
silently skipped. -/
def edge_directive_template (t : SemanticEdgeType) (source target : String) :
    Option String :=
  match t with
  | .IS_ANALOGOUS_TO => some ("Explore the structural or functional analogy between \x27" ++ source ++ "\x27 and \x27" ++ target ++ "\x27. What deeper insights arise from this comparison?")
  | .IS_METAPHOR_FOR => some ("Unpack the metaphor where \x27" ++ target ++ "\x27 represents \x27" ++ source ++ "\x27. What are the entailments and limitations of this metaphorical mapping?")
  | .SYMBOLIZES => some ("Construct a rich symbolic link where \x27" ++ target ++ "\x27 represents \x27" ++ source ++ "\x27. How does this symbolism operate across different contexts or domains?")
  | .OPPOSES => some ("Analyze the fundamental opposition between \x27" ++ source ++ "\x27 and \x27" ++ target ++ "\x27. Is this a productive tension or an irreconcilable difference?")
  | .CONTRADICTS_CLAIM => some ("Identify the specific claim or aspect where \x27" ++ source ++ "\x27 contradicts \x27" ++ target ++ "\x27. Can this contradiction be resolved or does it point to a deeper issue?")
  | .CHALLENGES_PREMISE_OF => some ("Investigate how \x27" ++ source ++ "\x27 challenges the underlying premises or assumptions of \x27" ++ target ++ "\x27. What are the implications if these premises are indeed flawed?")
  | .GENERATES_PARADOX_FROM => some ("Explore the logical or conceptual paradox that arises from the interaction between \x27" ++ source ++ "\x27 and \x27" ++ target ++ "\x27. What does this paradox reveal?")
  | .RESOLVES_TENSION_BETWEEN => some ("Elaborate on how \x27" ++ target ++ "\x27 offers a resolution or synthesis for the tension inherent between \x27" ++ source ++ "\x27 and potentially another related concept (implicit or explicit in the graph).")
  | .CAUSES => some ("Detail the causal mechanism by which \x27" ++ source ++ "\x27 leads to or produces \x27" ++ target ++ "\x27. Consider direct and indirect effects.")
  | .ENABLES => some ("Explain how \x27" ++ source ++ "\x27 creates the conditions or possibilities for \x27" ++ target ++ "\x27 to emerge or function.")
  | .INFLUENCES => some ("Describe the nature of the influence \x27" ++ source ++ "\x27 exerts on \x27" ++ target ++ "\x27. Is it shaping, triggering, or modifying?")
  | .AMPLIFIES => some ("Analyze how \x27" ++ source ++ "\x27 amplifies or intensifies the effects, characteristics, or significance of \x27" ++ target ++ "\x27.")
  | _ => none

/-- SynthesisCore._construct_llm_prompt. -/
def construct_llm_prompt (graph : GraphStructure) (analysis : GraphAnalysis)
    (ki_context : KIContext) : String :=
  -- 1. role definition
  let role_definition :=
    "You are an epistemic alchemist, an expert in synthesizing knowledge and generating novel insights. " ++
    "Your task is to create a meaningful synthesis based on the graph structure and knowledge context provided below. " ++
    "You excel at identifying patterns, resolving tensions, and generating creative connections between concepts."
  -- 2. input graph summary
  let input_summary : List String :=
    ["## INPUT GRAPH STRUCTURE", "### Nodes:"] ++
    (graph.nodes.flatMap (fun node =>
      let base := "- " ++ node.label ++ " (ID: " ++ node.id ++ ", Type: " ++
        node.type.value ++ ")"
      match pyTruthyOpt node.data_description with
      | some node_description =>
        [base, "  Description: " ++ pyTake node_description 150 ++ "..."]
      | none => [base])) ++
    ["\n### Relationships:"] ++
    (if graph.edges ≠ [] then
      graph.edges.filterMap (fun edge =>
        match node_id_map_get graph.nodes edge.source,
              node_id_map_get graph.nodes edge.target with
        | some source_node, some target_node =>
          some ("- " ++ source_node.label ++ " [" ++
            edge.semantic_type.value ++ "] " ++ target_node.label)
        | _, _ => none)
    else ["(No relationships defined)"])
  -- 3. analysis insights
  let analysis_insights : List String :=
    ["## GRAPH ANALYSIS"] ++
    (if analysis.central_nodes ≠ [] then
      let central_nodes_text := analysis.central_nodes.map (fun nd =>
        match findLabelFirst graph.nodes nd.1 with
        | some node_label => node_label ++ " (degree: " ++ pyStrNat nd.2 ++ ")"
        | none => "Node " ++ nd.1 ++ " (degree: " ++ pyStrNat nd.2 ++ ")")
      ["Central nodes: " ++ pyJoin ", " central_nodes_text]
    else []) ++
    (let patterns := analysis.graph_patterns.map GraphPattern.description
     if analysis.graph_patterns ≠ [] ∧ patterns ≠ [] then
      ["Detected patterns: " ++ pyJoin "; " patterns]
     else []) ++
    (if analysis.tension_edges ≠ [] then
      let tensions := analysis.tension_edges.map (fun edge =>
        let source_label := match node_id_map_get graph.nodes edge.source with
          | some n => n.label
          | none => edge.source
        let target_label := match node_id_map_get graph.nodes edge.target with
          | some n => n.label
          | none => edge.target
        source_label ++ " vs " ++ target_label)
      if tensions ≠ [] then ["Key tensions: " ++ pyJoin "; " tensions] else []
    else []) ++
    (if analysis.inferred_intent ≠ "" then
      ["Inferred synthesis intent: " ++ analysis.inferred_intent]
    else [])
  -- 4. knowledge context
  let context_sections : List String :=
    ["## KNOWLEDGE CONTEXT"] ++
    (if ki_context.kg_node_contexts ≠ [] then
      ["### Node Contexts:"] ++
      ki_context.kg_node_contexts.map (fun kv =>
        let node_label := (findLabelFirst graph.nodes kv.1).getD
          ("Node " ++ kv.1)
        match pyTruthyOpt kv.2.summary with
        | some summary => "- " ++ node_label ++ ": " ++ summary
        | none => "- " ++ node_label ++ ": (No summary available)")
    else []) ++
    (if ki_context.kg_interactions ≠ [] then
      ["\n### Known Interactions:"] ++
      ki_context.kg_interactions.filterMap (fun kv =>
        if kv.2 ≠ [] then
          let node1_label := (findLabelLast graph.nodes kv.1.1).getD
            ("Node " ++ kv.1.1)
          let node2_label := (findLabelLast graph.nodes kv.1.2).getD
            ("Node " ++ kv.1.2)
          let interaction_types := kv.2.map (fun i => i.type.getD "unknown")
          some ("- Between " ++ node1_label ++ " and " ++ node2_label ++
            ": " ++ pyJoin ", " interaction_types)
        else none)
    else []) ++
    (if ki_context.vector_similarities ≠ [] then
      ["\n### Similar Concepts:"] ++
      ki_context.vector_similarities.filterMap (fun kv =>
        let found_label := findLabelFirst graph.nodes kv.1
        let node_label :=
          if found_label = none ∧ ¬ pyStartsWith kv.1 "custom_" then
            some ("Node " ++ kv.1)
          else if pyStartsWith kv.1 "custom_" then some "Custom query"
          else found_label
        let similar_items := (kv.2.take 5).map (fun item =>
          let label := item.label.getD "Unnamed"
          let similarity := item.similarity.getD 0
          let desc := item.description.getD ""
          label ++ " (similarity: " ++ pyFormat2f similarity ++ ")" ++
            (if desc ≠ "" then ": " ++ pyTake desc 50 ++ "..." else ""))
        if similar_items ≠ [] then
          some ("- Similar to " ++ (node_label.getD "") ++ ": " ++
            pyJoin "; " similar_items)
        else none)
    else []) ++
    (if ki_context.vector_analogies ≠ [] then
      ["\n### Analogies:"] ++
      ki_context.vector_analogies.filterMap (fun kv =>
        let source_label := (findLabelLast graph.nodes kv.1.1).getD kv.1.1
        let target_label := (findLabelLast graph.nodes kv.1.2).getD kv.1.2
        let analogy_items := (kv.2.take 3).map (fun item =>
          let label := item.label.getD "Unnamed"
          let similarity := item.similarity.getD 0
          label ++ " (similarity: " ++ pyFormat2f similarity ++ ")")
        if analogy_items ≠ [] then
          some ("- Analogous to " ++ source_label ++ " → " ++ target_label ++
            ": " ++ pyJoin "; " analogy_items)
        else none)
    else []) ++
    (if ki_context.kg_lineage_paths ≠ [] then
      ["\n### Historical Influences:"] ++
      ki_context.kg_lineage_paths.filterMap (fun kv =>
        let node_label := (findLabelFirst graph.nodes kv.1).getD
          ("Node " ++ kv.1)
        if kv.2 ≠ [] then
          let path_strings := (kv.2.take 2).map (fun path =>
            pyJoin " → " (path.map (fun node_in_path =>
              node_in_path.label.getD "Unknown")))
          if path_strings ≠ [] then
            some ("- Influences for " ++ node_label ++ ": " ++
              pyJoin "; " path_strings)
          else none
        else none)
    else [])
  -- 5. synthesis task
  let intent := analysis.inferred_intent
  let task_intro :=
    if intent = "dialectical_synthesis" then
      "Create a dialectical synthesis that resolves tensions between the opposing concepts in the graph. " ++
      "Identify the thesis and antithesis, then develop a higher-order synthesis that transcends their limitations " ++
      "while preserving their valuable aspects."
    else if intent = "integrative_synthesis" then
      "Generate an integrative synthesis that meaningfully combines the concepts in the graph. " ++
      "Identify the complementary aspects of each concept and develop a unified framework that " ++
      "enhances our understanding of all of them."
    else if intent = "analogical_reasoning" then
      "Develop a rich analogy or metaphor that illuminates the relationships between concepts in the graph. " ++
      "Identify structural parallels across domains and show how the source domain provides insight " ++
      "into the target domain."
    else if intent = "causal_analysis" then
      "Analyze the causal relationships between the concepts in the graph. " ++
      "Identify chains of influence, feedback loops, and emergent effects. " ++
      "Develop a causal model that explains the system\x27s behavior."
    else if intent = "framework_building" then
      "Construct a theoretical framework that organizes the concepts in the graph. " ++
      "Define the key components, their relationships, and the principles that govern their interaction. " ++
      "Show how this framework provides explanatory or predictive power."
    else
      "Generate a novel synthesis that integrates the concepts in the graph in a meaningful way. " ++
      "Identify patterns, tensions, and complementarities, then develop a coherent perspective " ++
      "that adds value beyond the individual concepts."
  let size_hint : List String :=
    if graph.nodes.length ≤ 2 then
      ["With this focused graph, develop a deep synthesis that explores multiple dimensions " ++
       "of the relationship between these concepts."]
    else if graph.nodes.length ≥ 5 then
      ["With this complex graph, focus on finding the core patterns or principles " ++
       "that connect these diverse concepts in a coherent way."]
    else []
  let edge_directives : List String := graph.edges.filterMap (fun edge =>
    match node_id_map_get graph.nodes edge.source,
          node_id_map_get graph.nodes edge.target with
    | some source_node, some target_node =>
      (edge_directive_template edge.semantic_type source_node.label
        target_node.label).map (fun instr => "- " ++ instr)
    | _, _ => none)
  let task_section : List String :=
    ["## SYNTHESIS TASK", task_intro] ++ size_hint ++
    (if edge_directives ≠ [] then
      ["\n### Alchemical Directives (Based on Connections):"] ++
        edge_directives
    else []) ++
    ["\nYour synthesis should include:",
     "1. A title that captures the essence of your synthesis",
     "2. A concise summary of the synthesized concept (2-3 sentences)",
     "3. A more detailed explanation of the synthesis (1-2 paragraphs)",
     "4. Key implications or insights that emerge from this synthesis"]
  -- 6. constraints and guidance
  let constraints : List String :=
    ["## CONSTRAINTS AND GUIDANCE",
     "- Ground your synthesis in the provided context and structure",
     "- Focus on novelty derived from the specific relationships in the graph",
     "- Avoid simply summarizing the input concepts",
     "- Your synthesis should reveal emergent properties not obvious from the individual concepts",
     "- Be concise and precise in your language"]
  let sections : List String :=
    [role_definition, pyJoin "\n" input_summary,
     pyJoin "\n" analysis_insights, pyJoin "\n" context_sections,
     pyJoin "\n" task_section, pyJoin "\n" constraints]
  pyJoin "\n\n" sections

/-! ## Generated-text parser (SynthesisCore._parse_llm_output) -/

/-- The dict {"name", "description", "content"} built by _parse_llm_output. -/
structure ParsedOutput where
  name : String
  description : String
  content : String
  deriving DecidableEq, Repr

/-- The `except Exception` handler of _parse_llm_output: reset to the
generic name, a description built from the head of the raw text, and the
stripped raw text as content. -/
def parse_llm_output_fallback (synthesis_text : String) : ParsedOutput :=
  { name := "Synthesized Concept",
    description := "Synthesis generated. Content: " ++
      pyTake synthesis_text 50 ++ "...",
    content := pyStrip synthesis_text }

/-- The "fallback heuristics if structured format failed" block of
_parse_llm_output: when no Name: header was found and the content is
nonempty, a short first line becomes the name and is removed from the
content.  Returns the (name, content) pair it leaves in parsed_output. -/
def parse_name_heuristic (name1 : String) (name_found : Bool)
    (content1 : String) : Except String (String × String) := do
  if ¬ name_found = true ∧ content1 ≠ "" then
    let first_line ← pyIndex (pySplitOn '\n' content1) 0
    if pyLen first_line < 80 then
      let content_lines_temp := pySplitOn '\n' content1
      if content_lines_temp.length > 1 then
        pure (first_line, pyStrip (pyJoin "\n" (content_lines_temp.drop 1)))
      else
        pure (first_line, content1)
    else pure (name1, content1)
  else pure (name1, content1)

/-- The try block of _parse_llm_output.  The only operations that can raise
are the two list indexings (modelled with pyIndex); every other step is a
total string operation. -/
def parse_llm_output_try (synthesis_text : String) :
    Except String ParsedOutput := do
  -- defaults: parsed_output = {name, description, content}
  let default_name := "Synthesized Concept"
  let lines := pySplitOn '\n' (pyStrip synthesis_text)
  -- attempt to parse the structured Name: / Description: header
  let line0 ← pyIndex lines 0
  let (name1, name_found) :=
    if pyStartsWith (pyLower line0) "name:" then
      (pyStrip (pyDrop line0 (pyLen "name:")), true)
    else (default_name, false)
  let (desc1, desc_found) :=
    match lines with
    | _ :: line1 :: _ =>
      if pyStartsWith (pyLower line1) "description:" then
        (pyStrip (pyDrop line1 (pyLen "description:")), true)
      else ("", false)
    | _ => ("", false)
  -- determine where the main content starts
  let start_index := (if name_found then 1 else 0) +
    (if desc_found then 1 else 0)
  let start_index :=
    match lines.get? start_index with
    | some li => if pyStrip li = "" then start_index + 1 else start_index
    | none => start_index
  let content1 := pyStrip (pyJoin "\n" (lines.drop start_index))
  -- fallback heuristics if the structured format failed
  let (name2, content2) ← parse_name_heuristic name1 name_found content1
  let desc2 :=
    if ¬ desc_found then
      if name_found ∨ name2 ≠ default_name then
        let potential_desc := pyTake content2 150
        let sentence_end := pyRfind potential_desc '.'
        if sentence_end > 50 then pyTake potential_desc (sentence_end.toNat + 1)
        else potential_desc ++ "..."
      else
        "Synthesis based on input graph. Content: " ++
          pyTake content2 50 ++ "..."
    else desc1
  -- if content became empty after parsing, use description or full text
  let content3 :=
    if content2 = "" then
      if desc2 ≠ "" then desc2 else synthesis_text
    else content2
  -- ensure description is not longer than content
  let desc3 :=
    if pyLen desc2 > pyLen content3 then pyTake content3 150 ++ "..."
    else desc2
  pure { name := name2, description := desc3, content := content3 }

/-- SynthesisCore._parse_llm_output: the try block with its exception
handler. -/
def parse_llm_output (synthesis_text : String) : ParsedOutput :=
  match parse_llm_output_try synthesis_text with
  | .ok parsed_output => parsed_output
  | .error _ => parse_llm_output_fallback synthesis_text

/-! ## The synthesize pipeline (SynthesisCore.synthesize) -/

/-- The collaborators injected into SynthesisCore, plus the two ambient
effects of synthesize (uuid4 and datetime.now, the latter only feeding the
created_at keyword that pydantic drops).  agenerate_text is the text
generation call `await self.llm_client.agenerate_text(prompt)`; an
Except.error models the call raising, an ok value is whatever text the
client returned (the deployed clients return strings starting with
"Error:", or the empty string, instead of raising). -/
structure SynthesisCollabs where
  kg : KGCollab
  vector : Option VectorCollab := none
  agenerate_text : String → Except String String
  uuid4 : String
  now_iso : String

/-- The try block of SynthesisCore.synthesize: steps 1-4 and 6-7 are pure
on the embedding (the executor catches its own collaborator failures
internally, and the parser catches its own exceptions), so the only raise
that can reach this block's handler comes from the generation call of step
5. -/
def synthesize_run (collabs : SynthesisCollabs) (graph : GraphStructure) :
    Except String SynthesisOutput :=
  let analysis := analyze_graph graph
  let query_plan := plan_ki_queries graph analysis
  let ki_context := execute_ki_queries collabs.kg collabs.vector query_plan
  let prompt := construct_llm_prompt graph analysis ki_context
  match collabs.agenerate_text prompt with
  | .error e => .error e
  | .ok synthesis_text =>
    let parsed_output := parse_llm_output synthesis_text
    let synthesis_id := collabs.uuid4
    let _created_at := collabs.now_iso
    .ok { id := synthesis_id, name := parsed_output.name,
          description := parsed_output.description,
          parent_node_ids := graph.nodes.map NodeData.id,
          status := "success" }

/-- SynthesisCore.synthesize: the whole pipeline inside one try block;
`except Exception` converts any raise into the (None, error-message)
branch.  On success the SynthesisOutput is built with status "success";
pydantic drops the created_at, prompt, graph_structure, analysis and
content keywords, which have no corresponding model field. -/
def synthesize (collabs : SynthesisCollabs) (graph : GraphStructure) :
    Option SynthesisOutput × Option String :=
  match synthesize_run collabs graph with
  | .ok output => (some output, none)
  | .error e =>
    (none, some ("An unexpected error occurred during synthesis: " ++ e))

/-! ## Lineage Mapper (backend/app/services/lineage_mapper.py) -/

/-- The two Python exception classes the lineage mapper distinguishes in
its handlers: AttributeError (missing attribute, also raised by references
to undeclared enum members) versus any other exception. -/
inductive PyException where
  | attributeError (msg : String)
  | exception (msg : String)
  deriving DecidableEq, Repr

/-- An entity dictionary as returned by a knowledge-graph query (the
lineage mapper reads the ki_id, label, type and description keys with
defaults). -/
structure KGEntity where
  ki_id : Option String := none
  label : Option String := none
  type : Option String := none
  description : Option String := none
  deriving DecidableEq, Repr

/-- An element of a connection_info list: Union[str, RelationshipType]. -/
inductive ConnInfo where
  | rel (r : RelationshipType)
  | str (s : String)
  deriving DecidableEq, Repr

/-- The input to _format_as_lineage_item: Union[NodeData, Dict].  (A value
of another runtime type would hit the unsupported-type branch and return
None; the embedding's callers only ever pass these two.) -/
inductive LineageNodeInput where
  | nodeData (nd : NodeData)
  | kgDict (e : KGEntity)
  deriving Repr

/-- The knowledge-graph collaborator of the lineage mapper.  Only
find_related_nodes is ever reached (see trace_lineage_combined_query); an
Except.error models the call raising. -/
structure LineageKGCollab where
  find_related_nodes :
    String → List RelationshipType → List NodeType → Nat →
      Except String (List NodeData)

/-- All NodeType members, in declaration order. -/
def NodeType.members : List NodeType :=
  [.CONCEPT, .THINKER, .WORK, .SCHOOL_OF_THOUGHT, .HISTORICAL_CONTEXT,
   .SYMBOLIC_SYSTEM, .FIELD_OF_STUDY, .ARCHETYPE, .MYTH, .SYMBOL, .AXIOM,
   .METAPHOR, .PARADOX, .NARRATIVE, .PATTERN]

/-- NodeType(value): the enum constructor from its value string, None when
the string is no member value (the ValueError case). -/
def NodeType.ofValue (s : String) : Option NodeType :=
  NodeType.members.find? (fun t => t.value = s)

/-- An untyped Python value, as far as pydantic keyword validation needs to
see it. -/
inductive PyValue where
  | str (s : String)
  | nodeType (t : NodeType)
  deriving DecidableEq, Repr

/-- pydantic construction of a LineageItem from keyword arguments.  The
declared model fields are id, name and type (required) plus contribution
and connection_via (optional); unknown keywords are ignored (default
Extra.ignore) and a missing required field raises ValidationError.  The
call site in _format_as_lineage_item passes the keywords ki_id, label,
node_type, description, contribution and connection_via — none of the
required fields — so this validation always fails there. -/
def lineageItemModelValidate (kwargs : List (String × PyValue)) :
    Except PyException LineageItem :=
  match pyDictGet kwargs "id", pyDictGet kwargs "name",
        pyDictGet kwargs "type" with
  | some (.str id), some (.str name), some (.str type) =>
    .ok { id, name, type,
          contribution := match pyDictGet kwargs "contribution" with
            | some (.str c) => some c
            | _ => none,
          connection_via := match pyDictGet kwargs "connection_via" with
            | some (.str c) => some c
            | _ => none }
  | _, _, _ =>
    .error (.exception
      "ValidationError: 3 validation errors for LineageItem (id, name and type are required)")

/-- The contribution inference of _format_as_lineage_item for a truthy
connection_info.  After the THINKER, WORK and SCHOOL_OF_THOUGHT arms the
chain evaluates `node_type == NodeType.EPOCH`; NodeType declares no EPOCH
member, so that comparison raises AttributeError (likewise the CONCEPT and
CORE_METAPHOR arms behind it are unreachable). -/
def lineage_contribution (node_type : NodeType) :
    Except PyException String :=
  if node_type = .THINKER then .ok "Influential Thinker"
  else if node_type = .WORK then .ok "Source Work"
  else if node_type = .SCHOOL_OF_THOUGHT then .ok "Associated School"
  else .error (.attributeError "type object NodeType has no attribute EPOCH")

/-- LineageMapper._format_as_lineage_item: the try block computes the
fields, then constructs `LineageItem(ki_id=..., label=..., node_type=...,
description=..., contribution=..., connection_via=...)`; any exception —
including the ValidationError that this keyword construction always raises,
see lineageItemModelValidate — is caught and None is returned. -/
def format_as_lineage_item (node_data : LineageNodeInput)
    (connection_info : Option (List ConnInfo)) : Option LineageItem :=
  let body : Except PyException (Option LineageItem) := do
    let fields : Option String × String × NodeType × String :=
      match node_data with
      | .nodeData nd => (nd.ki_id, nd.label, nd.type,
          nd.data_description.getD "")
      | .kgDict e =>
        let node_type :=
          match NodeType.ofValue (e.type.getD NodeType.CONCEPT.value) with
          | some t => t
          | none => NodeType.CONCEPT  -- the ValueError fallback, logged
        (e.ki_id, e.label.getD "Unknown Label", node_type,
          e.description.getD "")
    match pyTruthyOpt fields.1 with
    | none => pure none  -- `if not ki_id: return None`
    | some ki_id => do
      let node_type := fields.2.2.1
      let contribution0 := pyTitle (pyReplaceChar node_type.value '_' ' ')
      let connection_via0 := "Direct Parent"
      let cc : String × String ←
        match connection_info with
        | some conn =>
          if conn ≠ [] then do  -- Python truthiness of the list
            let rel_types := conn.map (fun ci =>
              match ci with
              | .rel r => r.value
              | .str s => s)
            let connection_via :=
              if rel_types ≠ [] then pyJoin " -> " rel_types else "Related"
            let contribution ← lineage_contribution node_type
            pure (contribution, connection_via)
          else pure (contribution0, connection_via0)
        | none => pure (contribution0, connection_via0)
      let item ← lineageItemModelValidate
        [("ki_id", .str ki_id), ("label", .str fields.2.1),
         ("node_type", .nodeType node_type),
         ("description", .str fields.2.2.2),
         ("contribution", .str cc.1), ("connection_via", .str cc.2)]
      pure (some item)
  match body with
  | .ok r => r
  | .error _ => none

/-- Step 1 of LineageMapper.trace_lineage: scan the synthesis result's
parent identifiers against the generating graph's ki_id-keyed node map; a
match is formatted as a direct parent (and, when the formatting yields an
item, seeds the deep trace); a miss is seeded for the deep trace only.
Returns (direct_parents, deep_lineage_seed_ids). -/
def trace_lineage_direct (parent_ki_ids : List String)
    (generating_graph : GraphStructure) :
    List LineageItem × List String :=
  let generating_node_ki_map : List (String × NodeData) :=
    generating_graph.nodes.foldl (fun m node =>
      match pyTruthyOpt node.ki_id with
      | some ki => pyDictSet m ki node
      | none => m) []
  parent_ki_ids.foldl (fun acc ki_id =>
    if pyDictContains generating_node_ki_map ki_id then
      match pyDictGet generating_node_ki_map ki_id with
      | some node_data =>
        match format_as_lineage_item (.nodeData node_data) none with
        | some item => (acc.1 ++ [item], pySetAdd acc.2 ki_id)
        | none => acc
      | none => acc
    else
      (acc.1, pySetAdd acc.2 ki_id)) ([], [])

/-- The six category lists the deep trace would fill. -/
structure LineageCategories where
  key_thinkers : List LineageItem := []
  key_works : List LineageItem := []
  schools : List LineageItem := []
  epochs : List LineageItem := []
  foundational_concepts : List LineageItem := []
  foundational_metaphors : List LineageItem := []
  deriving Repr

/-- The influence_rels list built at the top of the deep-trace try block.
Its third element is RelationshipType.CRITIQUED_BY, which ki_ontology.py
does not declare, so evaluating the list raises AttributeError. -/
def lineage_influence_rels : Except PyException (List RelationshipType) :=
  .error (.attributeError
    "type object RelationshipType has no attribute CRITIQUED_BY")

/-- The foundation_rels list of the deep-trace try block; its
DEFINED_BY_CONCEPT and HAS_COMPONENT members are likewise undeclared. -/
def lineage_foundation_rels : Except PyException (List RelationshipType) :=
  .error (.attributeError
    "type object RelationshipType has no attribute DEFINED_BY_CONCEPT")

/-- The combined-query branch of the deep trace.  It raises AttributeError
while building influence_rels (and would do so again for foundation_rels
and for the NodeType.EPOCH target type), so it never reaches the
find_related_entities_by_paths call or the categorisation loop; the
enclosing `except AttributeError` then selects the sequential fallback. -/
def trace_lineage_combined_query :
    Except PyException LineageCategories := do
  let _influence_rels ← lineage_influence_rels
  let _foundation_rels ← lineage_foundation_rels
  .error (.attributeError "type object NodeType has no attribute EPOCH")

/-- The sequential fallback of the deep trace (`except AttributeError`):
one find_related_nodes query per seed restricted to THINKER neighbours with
the INFLUENCED_BY relation, each wrapped in its own try (a failing seed is
skipped); the results are deduplicated by truthy ki_id, seeds excluded,
capped at limit_per_type = 3, and formatted — the formatting always yields
None (see format_as_lineage_item), leaving key_thinkers empty. -/
def trace_lineage_fallback (kg : LineageKGCollab)
    (seed_list : List String) : LineageCategories :=
  let limit_per_type := 3
  let thinker_results_raw : List NodeData :=
    seed_list.foldl (fun acc current_ki_id =>
      match kg.find_related_nodes current_ki_id [.INFLUENCED_BY] [.THINKER]
          limit_per_type with
      | .ok results => acc ++ results
      | .error _ => acc) []
  let deduplicated_thinkers : List (String × NodeData) :=
    thinker_results_raw.foldl (fun m node =>
      match pyTruthyOpt node.ki_id with
      | some ki => if ki ∉ seed_list then pyDictSet m ki node else m
      | none => m) []
  let final_thinker_nodes :=
    (deduplicated_thinkers.map Prod.snd).take limit_per_type
  let key_thinkers := final_thinker_nodes.filterMap (fun node_data =>
    format_as_lineage_item (.nodeData node_data) none)
  { key_thinkers }

/-- pydantic coercion of the dict passed as the foundational_elements
keyword of LineageReport (keys concepts, metaphors, symbols): none of the
declared FoundationalElements fields appears among the keys, so both take
their default empty list, and the unknown keys are dropped. -/
def foundational_elements_of_dict (_concepts _metaphors _symbols :
    List LineageItem) : FoundationalElements :=
  {}

/-- LineageMapper.trace_lineage: direct parents from the generating graph,
then the deep trace (combined query, falling back on AttributeError to the
sequential thinker queries; any other exception leaves the categories
empty), then the report assembly. -/
def trace_lineage (kg : LineageKGCollab)
    (synthesis_output : SynthesisOutput)
    (generating_graph : GraphStructure) : LineageReport :=
  let parent_ki_ids := synthesis_output.parent_node_ids
  let step1 := trace_lineage_direct parent_ki_ids generating_graph
  let direct_parents := step1.1
  let deep_lineage_seed_ids := step1.2
  let cats : LineageCategories :=
    if deep_lineage_seed_ids ≠ [] then
      let seed_list := deep_lineage_seed_ids
      match trace_lineage_combined_query with
      | .ok cats => cats
      | .error (.attributeError _) => trace_lineage_fallback kg seed_list
      | .error (.exception _) => {}
    else {}
  { synthesized_concept_id := synthesis_output.id,
    direct_parents,
    key_influencers := cats.key_thinkers ++ cats.key_works,
    schools_and_epochs := cats.schools ++ cats.epochs,
    foundational_elements := foundational_elements_of_dict
      cats.foundational_concepts cats.foundational_metaphors [],
    semantic_resonances := [] }

/-! ## Concrete fixtures used by the claim theorems -/

/-- A knowledge-graph store whose lookups all succeed with empty data. -/
def stub_kg : KGCollab :=
  { get_node_context := fun _ => .ok none,
    find_known_interactions := fun _ _ => .ok [],
    trace_influence_paths := fun _ _ _ => .ok [] }

/-- A lineage-mapper knowledge-graph store whose lookups succeed empty. -/
def stub_lineage_kg : LineageKGCollab :=
  { find_related_nodes := fun _ _ _ _ => .ok [] }

/-- The node A:Concept "Order" with an external knowledge-identifier. -/
def node_order : NodeData :=
  { id := "A", type := .CONCEPT, label := "Order",
    ki_id := some "concept:order" }

/-- The node B:Concept "Chaos" with an external knowledge-identifier. -/
def node_chaos : NodeData :=
  { id := "B", type := .CONCEPT, label := "Chaos",
    ki_id := some "concept:chaos" }

/-- The edge A opposes B. -/
def edge_opposes : EdgeData :=
  { id := "e1", source := "A", target := "B", semantic_type := .OPPOSES }

/-- The two-node scenario graph of the specification: {A:Concept "Order",
B:Concept "Chaos"} with one edge A opposes B. -/
def graph_order_chaos : GraphStructure :=
  { nodes := [node_order, node_chaos], edges := [edge_opposes] }

/-- Collaborators for the C2 failing input: the text-generation
collaborator returns the deployed client's error string (it does not
raise), every knowledge-graph lookup succeeds empty, and the vector store
is absent. -/
def c2_collabs : SynthesisCollabs :=
  { kg := stub_kg, vector := none,
    agenerate_text := fun _ => .ok "Error: Gemini client not available.",
    uuid4 := "00000000-0000-4000-8000-000000000001",
    now_iso := "2025-01-01T00:00:00" }

/-- Collaborators for the C10 witness: a successful run end to end. -/
def c10_collabs : SynthesisCollabs :=
  { kg := stub_kg, vector := none,
    agenerate_text := fun _ =>
      .ok "Name: Harmony\nDescription: Order and chaos in balance.\n\nA synthesis body.",
    uuid4 := "00000000-0000-4000-8000-000000000002",
    now_iso := "2025-01-01T00:00:00" }

/-- An axiom node with an external identifier, source of the C3 edge. -/
def node_axiom_x : NodeData :=
  { id := "X", type := .AXIOM, label := "AxiomX", ki_id := some "a:x" }

/-- A concept node with an external identifier, target of the C3 edge. -/
def node_concept_y : NodeData :=
  { id := "Y", type := .CONCEPT, label := "TheoryY", ki_id := some "a:y" }

/-- An IS_AXIOM_FOR edge: framework-category, but not in the planner's
derivation_edge_types. -/
def edge_axiom_for : EdgeData :=
  { id := "e1", source := "X", target := "Y",
    semantic_type := .IS_AXIOM_FOR }

/-- A graph whose only edge is axiomatic (framework category). -/
def graph_axiom : GraphStructure :=
  { nodes := [node_axiom_x, node_concept_y], edges := [edge_axiom_for] }

/-- A second A-opposes-B edge, parallel to edge_opposes. -/
def edge_opposes_dup : EdgeData :=
  { id := "e2", source := "A", target := "B", semantic_type := .OPPOSES }

/-- The Order/Chaos graph with two parallel opposes edges. -/
def graph_parallel : GraphStructure :=
  { nodes := [node_order, node_chaos],
    edges := [edge_opposes, edge_opposes_dup] }

/-- A GENERATES_PARADOX_FROM edge between Order and Chaos. -/
def edge_paradox : EdgeData :=
  { id := "e1", source := "A", target := "B",
    semantic_type := .GENERATES_PARADOX_FROM }

/-- A graph whose only edge is paradox-inducing (tension category). -/
def graph_paradox : GraphStructure :=
  { nodes := [node_order, node_chaos], edges := [edge_paradox] }

/-- A plain node for the community-transitivity witness. -/
def mkPlainNode (i : String) : NodeData :=
  { id := i, type := .CONCEPT, label := i }

/-- The A-RELATED_TO-B edge of the C7 witness. -/
def edge_rel_ab : EdgeData :=
  { id := "e1", source := "A", target := "B", semantic_type := .RELATED_TO }

/-- The C-OPPOSES-B edge of the C7 witness (connecting B and C against the
edge direction). -/
def edge_opp_cb : EdgeData :=
  { id := "e2", source := "C", target := "B", semantic_type := .OPPOSES }

/-- A four-node graph in which A-B and B-C are connected (in mixed
directions and types) and D is isolated. -/
def graph_two_links : GraphStructure :=
  { nodes := [mkPlainNode "A", mkPlainNode "B", mkPlainNode "C",
      mkPlainNode "D"],
    edges := [edge_rel_ab, edge_opp_cb] }

/-! ## Claim C1 -/

theorem format_as_lineage_item_nodeData_none (nd : NodeData)
    (ci : Option (List ConnInfo)) :
    format_as_lineage_item (.nodeData nd) ci = none := by
  unfold format_as_lineage_item
  cases h : pyTruthyOpt nd.ki_id with
  | none => simp [h, pure, Except.pure]
  | some ki =>
    cases ci with
    | none =>
      simp [h, lineageItemModelValidate, pyDictGet, Except.instMonad,
        Except.bind, Except.pure, Except.map]
    | some conn =>
      by_cases hc : conn = []
      · subst hc
        simp [h, lineageItemModelValidate, pyDictGet, Except.instMonad,
          Except.bind, Except.pure, Except.map]
      · simp only [h, hc]
        cases hl : lineage_contribution nd.type with
        | ok c =>
          simp [h, hc, hl, lineageItemModelValidate, pyDictGet,
            Except.instMonad, Except.bind, Except.pure, Except.map]
        | error e =>
          simp [h, hc, hl, Except.instMonad, Except.bind, Except.pure,
            Except.map]

theorem trace_lineage_direct_fst (parent_ki_ids : List String)
    (g : GraphStructure) : (trace_lineage_direct parent_ki_ids g).1 = [] := by
  unfold trace_lineage_direct
  have main : ∀ (ids : List String)
      (m : List (String × NodeData)) (acc : List LineageItem × List String),
      (ids.foldl (fun acc ki_id =>
        if pyDictContains m ki_id then
          match pyDictGet m ki_id with
          | some node_data =>
            match format_as_lineage_item (.nodeData node_data) none with
            | some item => (acc.1 ++ [item], pySetAdd acc.2 ki_id)
            | none => acc
          | none => acc
        else
          (acc.1, pySetAdd acc.2 ki_id)) acc).1 = acc.1 := by
    intro ids
    induction ids with
    | nil => intro m acc; rfl
    | cons x xs ih =>
      intro m acc
      rw [List.foldl_cons, ih]
      split
      · split
        · simp [format_as_lineage_item_nodeData_none]
        · rfl
      · rfl
  exact main parent_ki_ids _ ([], [])

/-- Claim C1: the claim asserts that every parent identifier matching a
node of the generating graph by knowledge-identifier yields a direct-parent
LineageItem labelled "Direct Parent", and that non-matching identifiers are
seeded for the deep trace without appearing among the direct parents.  The
second half holds, but the first is violated by the code: the construction
`LineageItem(ki_id=..., label=..., node_type=..., description=...,
contribution=..., connection_via=...)` passes none of the model's required
fields (id, name, type), so pydantic raises ValidationError, the handler of
_format_as_lineage_item swallows it and returns None, and trace_lineage
drops the matched parent from direct_parents (and even from the seed set).
Hence direct_parents is empty for every input; the second conjunct
evaluates the failing input (a matched parent "concept:order" and an
unmatched parent "k:x" against the Order/Chaos graph): no direct parent is
produced and only the unmatched identifier is seeded. -/
theorem c1_direct_parents_always_empty :
    (∀ (kg : LineageKGCollab) (so : SynthesisOutput) (g : GraphStructure),
      (trace_lineage kg so g).direct_parents = []) ∧
    trace_lineage_direct ["concept:order", "k:x"] graph_order_chaos =
      ([], ["k:x"]) := by
  constructor
  · intro kg so g
    unfold trace_lineage
    simp only []
    exact trace_lineage_direct_fst so.parent_node_ids g
  · decide

/-! ## Claim C2 -/

/-- Claim C2: the specification requires that a pipeline run in which the
text service returns an error string (or empty text) without raising is
reported upward as a synthesis failure, with no retry.  The code never
inspects the generated text: on the failing input the pipeline returns no
error (second component none) and a success-status SynthesisOutput whose
name is the verbatim error string — the parser even promotes the short
error line to the concept name.  (The no-retry half does hold: the
generation call site is evaluated exactly once per run.) -/
theorem c2_error_text_yields_success_status :
    (synthesize c2_collabs graph_order_chaos).2 = none ∧
    ((synthesize c2_collabs graph_order_chaos).1.map SynthesisOutput.status)
      = some "success" ∧
    ((synthesize c2_collabs graph_order_chaos).1.map SynthesisOutput.name)
      = some "Error: Gemini client not available." :=
  ⟨rfl, rfl, rfl⟩

/-! ## Claims C9 and C10 -/

/-- Claim C9: synthesize is total at its public interface — for every graph
and every collaborator behaviour it returns either (output, no error) or
(no output, an error message); the single try block around steps 1-7
converts any raise into the second branch. -/
theorem c9_synthesize_total_interface (collabs : SynthesisCollabs)
    (graph : GraphStructure) :
    (∃ output, synthesize collabs graph = (some output, none)) ∨
    (∃ e, synthesize collabs graph = (none, some e)) := by
  unfold synthesize
  cases synthesize_run collabs graph with
  | ok output => exact Or.inl ⟨output, rfl⟩
  | error e => exact Or.inr ⟨_, rfl⟩

theorem synthesize_run_parent_node_ids (collabs : SynthesisCollabs)
    (graph : GraphStructure) (output : SynthesisOutput)
    (h : synthesize_run collabs graph = .ok output) :
    output.parent_node_ids = graph.nodes.map NodeData.id := by
  unfold synthesize_run at h
  dsimp only at h
  split at h
  · exact absurd h (by simp)
  · cases h
    rfl

/-- Claim C10: on every successful run the returned parent_node_ids is
exactly the list of local node identifiers of the input graph, in input
order (`[node.id for node in graph.nodes]`), never the external
knowledge-identifiers. -/
theorem c10_parent_node_ids_are_local_ids (collabs : SynthesisCollabs)
    (graph : GraphStructure)
    (h : (synthesize collabs graph).1.isSome = true) :
    (synthesize collabs graph).1.map SynthesisOutput.parent_node_ids =
      some (graph.nodes.map NodeData.id) := by
  unfold synthesize at h ⊢
  cases hr : synthesize_run collabs graph with
  | ok output =>
    simp only [hr, Option.map_some]
    exact congrArg some (synthesize_run_parent_node_ids _ _ _ hr)
  | error e => rw [hr] at h; simp at h

theorem c10_parent_node_ids_are_local_ids_witness :
    (synthesize c10_collabs graph_order_chaos).1.isSome = true ∧
    (synthesize c10_collabs graph_order_chaos).1.map
        SynthesisOutput.parent_node_ids =
      some (graph_order_chaos.nodes.map NodeData.id) :=
  ⟨rfl, c10_parent_node_ids_are_local_ids c10_collabs graph_order_chaos rfl⟩

/-! ## Shared preservation and characterisation lemmas -/

theorem foldl_preserves {α β : Type _} {P : α → Prop} {f : α → β → α}
    (hf : ∀ a b, P a → P (f a b)) :
    ∀ (l : List β) (a : α), P a → P (l.foldl f a) := by
  intro l
  induction l with
  | nil => exact fun a ha => ha
  | cons x xs ih => exact fun a ha => ih _ (hf a x ha)

theorem pySetAdd_nodup {s : List String} {x : String} (h : s.Nodup) :
    (pySetAdd s x).Nodup := by
  unfold pySetAdd
  by_cases hx : x ∈ s
  · simpa [hx] using h
  · simp [hx, List.nodup_append, h]

theorem analyzeEdgeStep_key (st : EdgeLoopState) (e : EdgeData) :
    (analyzeEdgeStep st e).key_semantic_edges =
      if e.semantic_type ∈ PRIORITY_EDGE_TYPES then
        st.key_semantic_edges ++ [e]
      else st.key_semantic_edges := by
  rfl

theorem foldl_analyzeEdgeStep_key (edges : List EdgeData) :
    ∀ st : EdgeLoopState,
    (edges.foldl analyzeEdgeStep st).key_semantic_edges =
      st.key_semantic_edges ++
        edges.filter (fun e => decide (e.semantic_type ∈ PRIORITY_EDGE_TYPES)) := by
  induction edges with
  | nil => intro st; simp
  | cons e es ih =>
    intro st
    rw [List.foldl_cons, ih]
    by_cases hp : e.semantic_type ∈ PRIORITY_EDGE_TYPES
    · simp [analyzeEdgeStep_key, hp, List.filter_cons]
    · simp [analyzeEdgeStep_key, hp, List.filter_cons]

theorem analyze_graph_key_semantic_edges (g : GraphStructure) :
    (analyze_graph g).key_semantic_edges =
      g.edges.filter (fun e => decide (e.semantic_type ∈ PRIORITY_EDGE_TYPES)) := by
  unfold analyze_graph
  dsimp only
  rw [foldl_analyzeEdgeStep_key]
  rfl

/-! ## Claim C3 -/

theorem lineage_traces_foldl (g : GraphStructure) (edges : List EdgeData) :
    ∀ acc : List String,
    (edges.foldl (fun acc edge =>
      if edge.semantic_type ∈ derivation_edge_types then
        match node_id_map_get g.nodes edge.source with
        | some source_node =>
          match pyTruthyOpt source_node.ki_id with
          | some ki => acc ++ [ki]
          | none => acc
        | none => acc
      else acc) acc) =
    acc ++ (edges.filter
        (fun e => decide (e.semantic_type ∈ derivation_edge_types))).filterMap
      (fun e => (node_id_map_get g.nodes e.source).bind
        (fun n => pyTruthyOpt n.ki_id)) := by
  induction edges with
  | nil => intro acc; simp
  | cons e es ih =>
    intro acc
    rw [List.foldl_cons, ih]
    by_cases hd : e.semantic_type ∈ derivation_edge_types
    · cases hs : node_id_map_get g.nodes e.source with
      | none => simp [hd, hs, List.filter_cons]
      | some n =>
        cases hk : pyTruthyOpt n.ki_id with
        | none => simp [hd, hs, hk, List.filter_cons]
        | some ki => simp [hd, hs, hk, List.filter_cons]
    · simp [hd, List.filter_cons]

/-- Claim C3 (amended): the planner emits one lineage-trace target — the
source node's truthy knowledge-identifier, when it exists — for every edge
whose semantic type is in the planner's derivation_edge_types set
(DERIVES_FROM and IS_COMPONENT_OF), and for no other edges; in particular
the axiomatic framework edges (IS_AXIOM_FOR) are not traced, contrary to
the original claim. -/
theorem c3_lineage_traces_derivation_only (g : GraphStructure) :
    (plan_ki_queries g (analyze_graph g)).kg_lineage_traces =
    (g.edges.filter
        (fun e => decide (e.semantic_type ∈ derivation_edge_types))).filterMap
      (fun e => (node_id_map_get g.nodes e.source).bind
        (fun n => pyTruthyOpt n.ki_id)) := by
  unfold plan_ki_queries
  dsimp only
  rw [lineage_traces_foldl, analyze_graph_key_semantic_edges,
    List.nil_append, List.filter_filter]
  congr 1
  apply List.filter_congr
  intro e _
  by_cases hd : e.semantic_type ∈ derivation_edge_types
  · have hp : e.semantic_type ∈ PRIORITY_EDGE_TYPES := by
      simp only [derivation_edge_types, List.mem_cons, List.mem_singleton,
        List.not_mem_nil, or_false] at hd
      rcases hd with h | h <;> rw [h] <;> decide
    simp [hd, hp]
  · simp [hd]

/-- Claim C3 (counterexample): the graph whose single edge is IS_AXIOM_FOR
— a framework-category type whose source carries the well-formed external
identifier "a:x" — receives an empty lineage-trace list, where the claim
demands one target. -/
theorem c3_axiom_edge_not_traced :
    edge_axiom_for ∈ graph_axiom.edges ∧
    edge_axiom_for.semantic_type ∈ FRAMEWORK_EDGE_TYPES ∧
    (node_id_map_get graph_axiom.nodes edge_axiom_for.source).bind
      NodeData.ki_id = some "a:x" ∧
    (plan_ki_queries graph_axiom (analyze_graph graph_axiom)).kg_lineage_traces
      = [] := by
  refine ⟨by decide, by decide, by decide, by decide⟩

/-! ## Claim C4 -/

/-- Claim C4 (amended): the context-fetch target list is deduplicated for
every input graph and analysis — it is built through a Python set.  (The
interaction-check and lineage-trace lists are appended per edge and are not
deduplicated; see the counterexample.) -/
theorem c4_context_fetch_nodup (g : GraphStructure)
    (analysis : GraphAnalysis) :
    ((plan_ki_queries g analysis).kg_context_nodes).Nodup := by
  unfold plan_ki_queries
  dsimp only
  apply List.Nodup.filter
  refine foldl_preserves ?h2 _ _ (foldl_preserves ?h1 _ _ List.nodup_nil)
  · intro s edge hs
    cases node_id_map_get g.nodes edge.source with
    | none =>
      cases node_id_map_get g.nodes edge.target with
      | none => exact hs
      | some tn => exact pySetAdd_nodup hs
    | some sn =>
      cases node_id_map_get g.nodes edge.target with
      | none => exact pySetAdd_nodup hs
      | some tn => exact pySetAdd_nodup (pySetAdd_nodup hs)
  · intro s kd hs
    exact pySetAdd_nodup hs

/-- Claim C4 (counterexample): with two parallel opposes edges between
Order and Chaos, the interaction-check list carries the identifier pair
twice — the plan's interaction (and lineage-trace) lists are not
deduplicated, contrary to the claim. -/
theorem c4_parallel_edges_duplicate_interaction :
    (plan_ki_queries graph_parallel
        (analyze_graph graph_parallel)).kg_interaction_checks =
      [("concept:order", "concept:chaos"),
       ("concept:order", "concept:chaos")] ∧
    ¬ ((plan_ki_queries graph_parallel
        (analyze_graph graph_parallel)).kg_interaction_checks).Nodup := by
  refine ⟨by decide, by decide⟩

/-! ## Claim C5 -/

theorem detect_dialectical_pairs_eq (g : GraphStructure) :
    detect_dialectical_pairs g =
      (g.edges.filter (fun e =>
          decide (e.semantic_type ∈ dialectical_pair_tension_types))).map
        (fun edge =>
          { type := "dialectical_pair", nodes := [edge.source, edge.target],
            description := "Dialectical Pair: " ++ edge.source ++ " --(" ++
              edge.semantic_type.value ++ ")--> " ++ edge.target }) := by
  unfold detect_dialectical_pairs
  induction g.edges with
  | nil => rfl
  | cons e es ih =>
    by_cases he : e.semantic_type ∈ dialectical_pair_tension_types
    · simp [he, List.filter_cons, ih]
    · simp [he, List.filter_cons, ih]

theorem detect_chains_type (g : GraphStructure)
    (adj : List (String × List (String × SemanticEdgeType))) :
    ∀ p ∈ detect_chains g adj, p.type = "chain" := by
  intro p hp
  unfold detect_chains at hp
  simp only [List.mem_flatMap, List.mem_filterMap] at hp
  obtain ⟨a, -, bt, -, ct, -, hif⟩ := hp
  split at hif
  · cases hif
    rfl
  · cases hif

theorem detect_synthesis_triangles_type (g : GraphStructure) :
    ∀ p ∈ detect_synthesis_triangles g, p.type = "synthesis_triangle" := by
  intro p hp
  unfold detect_synthesis_triangles at hp
  simp only [List.mem_filterMap] at hp
  obtain ⟨ts, -, hif⟩ := hp
  split at hif
  · cases hif
    rfl
  · cases hif

theorem detect_star_patterns_type (g : GraphStructure) :
    ∀ p ∈ detect_star_patterns g, p.type = "star_pattern" := by
  intro p hp
  unfold detect_star_patterns at hp
  simp only [List.mem_filterMap] at hp
  obtain ⟨node, -, hif⟩ := hp
  split at hif
  · cases hif
    rfl
  · cases hif

/-- Claim C5 (amended): the Analyzer records one dialectical-pair motif (a
2-node motif over the edge's endpoints) for every single edge whose type is
in the _detect_dialectical_pairs tension set — opposition,
claim-contradiction, premise-challenging and refutation — and for no other
edges; paradox-inducing edges (GENERATES_PARADOX_FROM), although in the
analyzer's tension category, record no dialectical pair, contrary to the
original claim. -/
theorem c5_dialectical_pairs_characterisation (g : GraphStructure) :
    ((analyze_graph g).graph_patterns.filter
        (fun p => decide (p.type = "dialectical_pair"))) =
      (g.edges.filter (fun e =>
          decide (e.semantic_type ∈ dialectical_pair_tension_types))).map
        (fun edge =>
          ({ type := "dialectical_pair",
             nodes := [edge.source, edge.target].filterMap (fun node_id =>
               (node_id_map_get g.nodes node_id).map NodeData.label),
             description := "Dialectical Pair: " ++ edge.source ++ " --(" ++
               edge.semantic_type.value ++ ")--> " ++ edge.target } :
            GraphPattern)) := by
  unfold analyze_graph
  dsimp only
  unfold detect_graph_patterns
  rw [List.map_append, List.map_append, List.map_append,
    List.filter_append, List.filter_append, List.filter_append]
  have hchain : ∀ adj, ((detect_chains g adj).map (fun pattern =>
      ({ type := pattern.type,
         nodes := pattern.nodes.filterMap (fun node_id =>
           (node_id_map_get g.nodes node_id).map NodeData.label),
         description := pattern.description } : GraphPattern))).filter
      (fun p => decide (p.type = "dialectical_pair")) = [] := by
    intro adj
    rw [List.filter_eq_nil_iff]
    intro q hq
    rw [List.mem_map] at hq
    obtain ⟨p, hp, rfl⟩ := hq
    simp [detect_chains_type g adj p hp]
  have htri : ((detect_synthesis_triangles g).map (fun pattern =>
      ({ type := pattern.type,
         nodes := pattern.nodes.filterMap (fun node_id =>
           (node_id_map_get g.nodes node_id).map NodeData.label),
         description := pattern.description } : GraphPattern))).filter
      (fun p => decide (p.type = "dialectical_pair")) = [] := by
    rw [List.filter_eq_nil_iff]
    intro q hq
    rw [List.mem_map] at hq
    obtain ⟨p, hp, rfl⟩ := hq
    simp [detect_synthesis_triangles_type g p hp]
  have hstar : ((detect_star_patterns g).map (fun pattern =>
      ({ type := pattern.type,
         nodes := pattern.nodes.filterMap (fun node_id =>
           (node_id_map_get g.nodes node_id).map NodeData.label),
         description := pattern.description } : GraphPattern))).filter
      (fun p => decide (p.type = "dialectical_pair")) = [] := by
    rw [List.filter_eq_nil_iff]
    intro q hq
    rw [List.mem_map] at hq
    obtain ⟨p, hp, rfl⟩ := hq
    simp [detect_star_patterns_type g p hp]
  rw [hchain, htri, hstar]
  have hdial : ((detect_dialectical_pairs g).map (fun pattern =>
      ({ type := pattern.type,
         nodes := pattern.nodes.filterMap (fun node_id =>
           (node_id_map_get g.nodes node_id).map NodeData.label),
         description := pattern.description } : GraphPattern))).filter
      (fun p => decide (p.type = "dialectical_pair")) =
      (detect_dialectical_pairs g).map (fun pattern =>
      ({ type := pattern.type,
         nodes := pattern.nodes.filterMap (fun node_id =>
           (node_id_map_get g.nodes node_id).map NodeData.label),
         description := pattern.description } : GraphPattern)) := by
    rw [List.filter_eq_self]
    intro q hq
    rw [List.mem_map] at hq
    obtain ⟨p, hp, rfl⟩ := hq
    rw [detect_dialectical_pairs_eq, List.mem_map] at hp
    obtain ⟨e, -, rfl⟩ := hp
    simp
  rw [hdial, detect_dialectical_pairs_eq, List.map_map]
  simp

/-- Claim C5 (counterexample): a single GENERATES_PARADOX_FROM edge is in
the analyzer's tension category (the analysis records it among
tension_edges and infers the dialectical intent), yet no dialectical-pair
motif is recorded for it, because _detect_dialectical_pairs uses a local
four-element tension set omitting that type. -/
theorem c5_paradox_edge_no_dialectical_pair :
    SemanticEdgeType.GENERATES_PARADOX_FROM ∈ TENSION_EDGE_TYPES ∧
    (analyze_graph graph_paradox).tension_edges = [edge_paradox] ∧
    (analyze_graph graph_paradox).graph_patterns.filter
      (fun p => decide (p.type = "dialectical_pair")) = [] := by
  refine ⟨by decide, by decide, by decide⟩

/-! ## Claim C6 -/

/-- Claim C6 (counterexample): on the Order/Chaos opposes scenario the
inferred intent is indeed the dialectical category, but the planner's
similarity-search target list is not empty — the central nodes' well-formed
identifiers are always planned for similarity regardless of intent — where
the claim demands zero similarity targets. -/
theorem c6_similarity_targets_not_empty :
    (analyze_graph graph_order_chaos).inferred_intent =
      "dialectical_synthesis" ∧
    (plan_ki_queries graph_order_chaos
        (analyze_graph graph_order_chaos)).vector_similarity_nodes ≠ [] := by
  refine ⟨by decide, by decide⟩

/-- Claim C6 (amended): on the graph {A:Concept "Order", B:Concept
"Chaos"} with one A-opposes-B edge and both nodes carrying external
identifiers, the inferred intent is the tension (dialectical) category and
the planner emits exactly one context-fetch target per node; but instead of
zero similarity targets it emits one similarity target per central node
(both nodes here, in degree-sort order) plus one dialectical combined-text
vector query. -/
theorem c6_order_chaos_scenario :
    (analyze_graph graph_order_chaos).inferred_intent =
      "dialectical_synthesis" ∧
    (plan_ki_queries graph_order_chaos
        (analyze_graph graph_order_chaos)).kg_context_nodes.length = 2 ∧
    "concept:order" ∈ (plan_ki_queries graph_order_chaos
        (analyze_graph graph_order_chaos)).kg_context_nodes ∧
    "concept:chaos" ∈ (plan_ki_queries graph_order_chaos
        (analyze_graph graph_order_chaos)).kg_context_nodes ∧
    (plan_ki_queries graph_order_chaos
        (analyze_graph graph_order_chaos)).vector_similarity_nodes =
      ["concept:order", "concept:chaos"] ∧
    (plan_ki_queries graph_order_chaos
        (analyze_graph graph_order_chaos)).vector_queries =
      [.find_similar "Order OPPOSES Chaos" 3 "CONCEPT"] := by
  refine ⟨by decide, by decide, by decide, by decide, by decide, by decide⟩

/-! ## Claim C7 -/

theorem mergeAt_length {cs : List (List String)} {i j : Nat} (hij : i < j)
    (hj : j < cs.length) : (mergeAt cs i j).length = cs.length - 1 := by
  simp [mergeAt, List.length_eraseIdx, List.length_set, hj]

theorem flatten_getD_eraseIdx_perm :
    ∀ (cs : List (List String)) (j : Nat), j < cs.length →
    (cs.getD j [] ++ (cs.eraseIdx j).flatten).Perm cs.flatten := by
  intro cs
  induction cs with
  | nil => intro j hj; simp at hj
  | cons c cs ih =>
    intro j hj
    cases j with
    | zero => simp
    | succ j' =>
      simp only [List.getD_cons_succ, List.eraseIdx_cons_succ,
        List.flatten_cons]
      have h1 : (cs.getD j' [] ++ (c ++ (cs.eraseIdx j').flatten)).Perm
          (c ++ (cs.getD j' [] ++ (cs.eraseIdx j').flatten)) := by
        rw [← List.append_assoc, ← List.append_assoc]
        exact List.Perm.append_right _ List.perm_append_comm
      exact h1.trans ((ih j' (by simpa using hj)).append_left c)

theorem flatten_mergeAt_perm :
    ∀ (cs : List (List String)) (i j : Nat), i < j → j < cs.length →
    ((mergeAt cs i j).flatten).Perm cs.flatten := by
  intro cs
  induction cs with
  | nil => intro i j hij hj; simp at hj
  | cons c cs ih =>
    intro i j hij hj
    cases j with
    | zero => omega
    | succ j' =>
      cases i with
      | zero =>
        simp only [mergeAt, List.getD_cons_zero, List.getD_cons_succ,
          List.set_cons_zero, List.eraseIdx_cons_succ, List.flatten_cons]
        rw [List.append_assoc]
        exact (flatten_getD_eraseIdx_perm cs j'
          (by simpa using hj)).append_left c
      | succ i' =>
        simp only [mergeAt, List.getD_cons_succ, List.set_cons_succ,
          List.eraseIdx_cons_succ, List.flatten_cons]
        exact (ih i' j' (by omega) (by simpa using hj)).append_left c

theorem mergeCommunitiesLoop_post (edges : List EdgeData)
    (cs : List (List String)) :
    firstMergePair edges (mergeCommunitiesLoop edges cs) = none := by
  generalize hn : cs.length = n
  induction n using Nat.strong_induction_on generalizing cs with
  | _ n ih =>
    rw [mergeCommunitiesLoop]
    split
    · assumption
    · next i j h =>
      obtain ⟨hij, hj⟩ := firstMergePair_lt h
      exact ih (mergeAt cs i j).length
        (by rw [mergeAt_length hij hj]; omega) _ rfl

theorem mergeCommunitiesLoop_flatten_perm (edges : List EdgeData)
    (cs : List (List String)) :
    ((mergeCommunitiesLoop edges cs).flatten).Perm cs.flatten := by
  generalize hn : cs.length = n
  induction n using Nat.strong_induction_on generalizing cs with
  | _ n ih =>
    rw [mergeCommunitiesLoop]
    split
    · exact List.Perm.refl _
    · next i j h =>
      obtain ⟨hij, hj⟩ := firstMergePair_lt h
      exact (ih (mergeAt cs i j).length
        (by rw [mergeAt_length hij hj]; omega) _ rfl).trans
        (flatten_mergeAt_perm cs i j hij hj)

theorem firstMergePair_none_no_cross {edges : List EdgeData}
    {cs : List (List String)} (h : firstMergePair edges cs = none)
    {i j : Nat} (hij : i < j) (hj : j < cs.length) :
    communitiesConnected edges (cs.getD i []) (cs.getD j []) = false := by
  rw [firstMergePair, List.findSome?_eq_none_iff] at h
  have hi := h i (List.mem_range.mpr (lt_trans hij hj))
  rw [List.findSome?_eq_none_iff] at hi
  have hj' := hi j (by
    rw [List.mem_filter, List.mem_range]
    exact ⟨hj, by simpa using hij⟩)
  by_contra hc
  rw [Bool.not_eq_false] at hc
  rw [hc] at hj'
  simp at hj'

theorem communitiesConnected_of_mem {edges : List EdgeData}
    {ci cj : List String} {e : EdgeData} (he : e ∈ edges)
    (h : (e.source ∈ ci ∧ e.target ∈ cj) ∨
         (e.source ∈ cj ∧ e.target ∈ ci)) :
    communitiesConnected edges ci cj = true := by
  unfold communitiesConnected
  rw [List.any_eq_true]
  refine ⟨e, he, ?_⟩
  rcases h with ⟨h1, h2⟩ | ⟨h1, h2⟩
  · simp [h1, h2]
  · simp [h1, h2]

theorem final_same_index {edges : List EdgeData} {R : List (List String)}
    (hpost : firstMergePair edges R = none) {e : EdgeData} (he : e ∈ edges)
    {x y : String} {i j : Nat} (hi : i < R.length) (hj : j < R.length)
    (hx : x ∈ R.getD i []) (hy : y ∈ R.getD j [])
    (hxy : (e.source = x ∧ e.target = y) ∨
           (e.source = y ∧ e.target = x)) : i = j := by
  by_contra hne
  rcases Nat.lt_or_ge i j with hlt | hge
  · have hno := firstMergePair_none_no_cross hpost hlt hj
    have hc : communitiesConnected edges (R.getD i []) (R.getD j []) = true := by
      apply communitiesConnected_of_mem he
      rcases hxy with ⟨h1, h2⟩ | ⟨h1, h2⟩
      · exact Or.inl ⟨by rw [h1]; exact hx, by rw [h2]; exact hy⟩
      · exact Or.inr ⟨by rw [h1]; exact hy, by rw [h2]; exact hx⟩
    rw [hno] at hc
    cases hc
  · have hlt : j < i := by omega
    have hno := firstMergePair_none_no_cross hpost hlt hi
    have hc : communitiesConnected edges (R.getD j []) (R.getD i []) = true := by
      apply communitiesConnected_of_mem he
      rcases hxy with ⟨h1, h2⟩ | ⟨h1, h2⟩
      · exact Or.inr ⟨by rw [h1]; exact hx, by rw [h2]; exact hy⟩
      · exact Or.inl ⟨by rw [h1]; exact hy, by rw [h2]; exact hx⟩
    rw [hno] at hc
    cases hc

/-- Claim C7: the community-merge procedure terminates on every graph (the
Lean transcription carries the same termination measure the loop realises:
every merge removes one community) and its result realises undirected
connected components at the granularity the claim states: whenever some
edge (of any type, in either direction) connects A and B and some edge
connects B and C, with A, B, C nodes of the graph, one community of the
result contains all three. -/
theorem c7_communities_transitive (g : GraphStructure) (A B C : String)
    (e1 e2 : EdgeData) (he1 : e1 ∈ g.edges) (he2 : e2 ∈ g.edges)
    (hAB : (e1.source = A ∧ e1.target = B) ∨
           (e1.source = B ∧ e1.target = A))
    (hBC : (e2.source = B ∧ e2.target = C) ∨
           (e2.source = C ∧ e2.target = B))
    (hA : A ∈ g.nodes.map NodeData.id)
    (hB : B ∈ g.nodes.map NodeData.id)
    (hC : C ∈ g.nodes.map NodeData.id) :
    ∃ c ∈ identify_communities g, A ∈ c ∧ B ∈ c ∧ C ∈ c := by
  have hpost : firstMergePair g.edges (identify_communities g) = none :=
    mergeCommunitiesLoop_post _ _
  have hperm : (identify_communities g).flatten.Perm
      ((g.nodes.map (fun node => [node.id])).flatten) :=
    mergeCommunitiesLoop_flatten_perm _ _
  have hinit : ∀ x : String,
      x ∈ (g.nodes.map (fun node => [node.id])).flatten ↔
      x ∈ g.nodes.map NodeData.id := by
    intro x
    rw [List.mem_flatten]
    constructor
    · rintro ⟨l, hl, hx⟩
      rw [List.mem_map] at hl
      obtain ⟨nd, hnd, rfl⟩ := hl
      simp only [List.mem_singleton] at hx
      subst hx
      exact List.mem_map_of_mem _ hnd
    · intro hx
      rw [List.mem_map] at hx
      obtain ⟨nd, hnd, rfl⟩ := hx
      exact ⟨[nd.id], List.mem_map_of_mem _ hnd, by simp⟩
  have hmem : ∀ x : String, x ∈ g.nodes.map NodeData.id →
      ∃ i, i < (identify_communities g).length ∧
        x ∈ (identify_communities g).getD i [] := by
    intro x hx
    have hxf : x ∈ (identify_communities g).flatten :=
      hperm.mem_iff.mpr ((hinit x).mpr hx)
    rw [List.mem_flatten] at hxf
    obtain ⟨c, hc, hxc⟩ := hxf
    rw [List.mem_iff_get] at hc
    obtain ⟨n, hn⟩ := hc
    refine ⟨n.1, n.2, ?_⟩
    rw [List.getD_eq_getElem _ _ n.2, ← List.get_eq_getElem, hn]
    exact hxc
  obtain ⟨iA, hiA, hxA⟩ := hmem A hA
  obtain ⟨iB, hiB, hxB⟩ := hmem B hB
  obtain ⟨iC, hiC, hxC⟩ := hmem C hC
  have hAB' : iA = iB := final_same_index hpost he1 hiA hiB hxA hxB hAB
  have hBC' : iB = iC := final_same_index hpost he2 hiB hiC hxB hxC hBC
  subst hAB'
  subst hBC'
  refine ⟨(identify_communities g).getD iA [], ?_, hxA, hxB, hxC⟩
  rw [List.getD_eq_getElem _ _ hiA]
  exact List.getElem_mem _

theorem c7_communities_transitive_witness :
    (edge_rel_ab ∈ graph_two_links.edges ∧
     edge_opp_cb ∈ graph_two_links.edges ∧
     ((edge_rel_ab.source = "A" ∧ edge_rel_ab.target = "B") ∨
      (edge_rel_ab.source = "B" ∧ edge_rel_ab.target = "A")) ∧
     ((edge_opp_cb.source = "B" ∧ edge_opp_cb.target = "C") ∨
      (edge_opp_cb.source = "C" ∧ edge_opp_cb.target = "B")) ∧
     "A" ∈ graph_two_links.nodes.map NodeData.id ∧
     "B" ∈ graph_two_links.nodes.map NodeData.id ∧
     "C" ∈ graph_two_links.nodes.map NodeData.id) ∧
    (∃ c ∈ identify_communities graph_two_links,
      "A" ∈ c ∧ "B" ∈ c ∧ "C" ∈ c) :=
  ⟨⟨by decide, by decide, by decide, by decide, by decide, by decide,
    by decide⟩,
   c7_communities_transitive graph_two_links "A" "B" "C" edge_rel_ab
     edge_opp_cb (by decide) (by decide) (by decide) (by decide) (by decide)
     (by decide) (by decide)⟩

/-! ## Claim C8 -/

theorem pyIndex_zero_ok {α : Type} (l : List α) (h : l ≠ []) :
    ∃ a, pyIndex l 0 = .ok a := by
  cases l with
  | nil => exact absurd rfl h
  | cons x xs => exact ⟨x, rfl⟩

theorem except_bind_ok {α β : Type} {e : Except String α}
    {f : α → Except String β} (h : ∃ a, e = Except.ok a)
    (hf : ∀ a, ∃ b, f a = Except.ok b) :
    ∃ b, (e >>= f) = Except.ok b := by
  obtain ⟨a, ha⟩ := h
  obtain ⟨b, hb⟩ := hf a
  exact ⟨b, by rw [ha]; exact hb⟩

theorem parse_name_heuristic_ok (name1 : String) (name_found : Bool)
    (content1 : String) :
    ∃ r, parse_name_heuristic name1 name_found content1 = .ok r := by
  unfold parse_name_heuristic
  split
  · refine except_bind_ok (pyIndex_zero_ok _ (pySplitOn_ne_nil _ _))
      (fun first_line => ?_)
    split
    · dsimp only
      split
      · exact ⟨_, rfl⟩
      · exact ⟨_, rfl⟩
    · exact ⟨_, rfl⟩
  · exact ⟨_, rfl⟩

theorem parse_llm_output_try_ok (synthesis_text : String) :
    ∃ r, parse_llm_output_try synthesis_text = .ok r := by
  unfold parse_llm_output_try
  dsimp only
  refine except_bind_ok (pyIndex_zero_ok _ (pySplitOn_ne_nil _ _))
    (fun line0 => ?_)
  refine except_bind_ok (parse_name_heuristic_ok _ _ _) (fun nc => ?_)
  obtain ⟨name2, content2⟩ := nc
  exact ⟨_, rfl⟩

/-- Claim C8: for every input string the parser's try block runs to
completion — the only fallible operations, the two list indexings, are
applied to results of a split that is never empty — so the parser always
returns the structured record and never raises; the exception handler
(parse_llm_output_fallback) is consequently unreachable for string input,
which also settles the claim's conditional about that branch vacuously. -/
theorem c8_parse_total_never_raises (synthesis_text : String) :
    ∃ parsed, parse_llm_output_try synthesis_text = .ok parsed ∧
      parse_llm_output synthesis_text = parsed := by
  obtain ⟨r, hr⟩ := parse_llm_output_try_ok synthesis_text
  exact ⟨r, hr, by rw [parse_llm_output, hr]⟩
